import Mathlib

/-!
Verification of the ecotuned recommendation engine and weather feature
extraction, as a shallow embedding in Lean 4.

Sources embedded here:
- `src/lib/heatingUtils.ts` (hot-water-system compatibility),
- `src/lib/api.ts` (drying score, continuous drying periods, per-day
  weather processing),
- `src/lib/recommendations.ts` (rule evaluation, sorting, category
  diversity selection, time-status annotation).

Modelling decisions, applied uniformly:
- JavaScript numbers are modelled by `ℚ` (exact rational arithmetic);
  counts and clock hours by `Nat`/`Int`.  The programs compared and
  combined here stay far from any floating-point rounding boundary in the
  claims settled below.
- `Math.round(x)` (round half toward +∞) is `jsRound`, `x.toFixed(0)` is
  `jsToFixed0` (ES spec: nearest integer, ties to the larger).
- The JavaScript `x || d` default idiom on numbers (`0`, `NaN` and
  `undefined` are falsy) is `jsOrNum` on `Option ℚ`.
- Wall-clock reads (`getCurrentUKHour`) are made an explicit
  `currentUKHour : Nat` argument, the injectable clock of the spec.
- `new Date(weather.date).getDay()` on an ISO `YYYY-MM-DD` string is
  modelled by `Date.getDay` on a civil-date structure (Howard Hinnant's
  days-from-civil algorithm; the server runs in Europe/London where the
  civil date of the parsed UTC midnight is the string's date).
- String interpolation of numbers uses `numStr`; it agrees with
  JavaScript for integral values, which is the only case exercised by
  the claims about description strings.
-/

namespace EcoTuned

/-- JS `Math.round`: round half toward `+∞`. -/
def jsRound (q : ℚ) : Int := Int.floor (q + 1/2)

/-- ES `Number.prototype.toFixed(0)`: the integer `n` minimising
`|n - x|`, ties going to the larger `n`. -/
def jsToFixed0 (q : ℚ) : Int := Int.floor (q + 1/2)

/-- JS `v || d` on an optional numeric field: `undefined` and `0` are
falsy and select the default. -/
def jsOrNum (v : Option ℚ) (d : ℚ) : ℚ :=
  match v with
  | none => d
  | some x => if x = 0 then d else x

/-- JS number-to-string for interpolation; exact for integral values. -/
def numStr (q : ℚ) : String :=
  if q.den = 1 then toString q.num else toString q

/-- km/h to mph conversion factor used throughout `api.ts`. -/
def kmhToMph : ℚ := 621371 / 1000000

/-! ### `src/lib/heatingUtils.ts` -/

/-- `getValidHotWaterOptions` (heatingUtils.ts:13-39): the `switch` on
the heating type, with the `default` arm returning all four options. -/
def getValidHotWaterOptions (heatingType : String) : List String :=
  if heatingType = "gas" then ["combi", "tank", "other"]
  else if heatingType = "electric" then ["tank", "electric", "other"]
  else if heatingType = "heat-pump" then ["tank", "other"]
  else if heatingType = "oil" then ["tank", "other"]
  else if heatingType = "other" then ["combi", "tank", "electric", "other"]
  else ["combi", "tank", "electric", "other"]

/-- `isValidHeatingCombination` (heatingUtils.ts:48-51). -/
def isValidHeatingCombination (heatingType hotWaterSystem : String) : Bool :=
  (getValidHotWaterOptions heatingType).contains hotWaterSystem

/-! ### Data model (`src/lib/schemas.ts`, fields as consumed by the core) -/

/-- Civil date, standing for the ISO `YYYY-MM-DD` string of
`SimplifiedWeather.date`. -/
structure Date where
  year : Int
  month : Nat
  day : Nat
deriving DecidableEq, Repr

/-- Days since 1970-01-01 of a civil date (Hinnant's algorithm, exact
for the Gregorian calendar). -/
def Date.daysFromCivil (dt : Date) : Int :=
  let y : Int := if dt.month ≤ 2 then dt.year - 1 else dt.year
  let era : Int := (if 0 ≤ y then y else y - 399) / 400
  let yoe : Int := y - era * 400
  let mp : Int := if 2 < dt.month then (dt.month : Int) - 3 else (dt.month : Int) + 9
  let doy : Int := (153 * mp + 2) / 5 + (dt.day : Int) - 1
  let doe : Int := yoe * 365 + yoe / 4 - yoe / 100 + doy
  era * 146097 + doe - 719468

/-- `Date.prototype.getDay()`: 0 = Sunday … 6 = Saturday
(1970-01-01 was a Thursday). -/
def Date.getDay (dt : Date) : Int := (dt.daysFromCivil + 4) % 7

/-- An entry of `SimplifiedWeather.sunnyPeriods`. -/
structure SunnyPeriod where
  hour : Nat
  temp : ℚ
  cloudCoverage : ℚ
  solarRadiation : ℚ
deriving DecidableEq, Repr

/-- An entry of `SimplifiedWeather.continuousDryingPeriods`. -/
structure ContinuousDryingPeriod where
  startHour : Nat
  endHour : Nat
  duration : Nat
  avgScore : ℚ
  avgTemp : Int
  avgHumidity : Int
deriving DecidableEq, Repr

/-- `SimplifiedWeather`: the per-day snapshot consumed by the engine.
`sunriseHour`/`sunsetHour` stand for the hour extracted by
`new Date(...).getHours()` from the ISO sunrise/sunset strings. -/
structure SimplifiedWeather where
  date : Date
  tempHigh : ℚ
  tempLow : ℚ
  avgTemp : ℚ
  tempNow : Option ℚ
  conditions : String
  conditionsRange : Option String
  cloudCoveragePercent : ℚ
  windSpeedMph : ℚ
  windSpeedMax : ℚ
  rainProbability : ℚ
  avgHumidity : ℚ
  sunnyHours : ℚ
  dryingHours : ℚ
  sunriseHour : Nat
  sunsetHour : Nat
  sunnyPeriods : List SunnyPeriod
  continuousDryingPeriods : List ContinuousDryingPeriod
deriving DecidableEq, Repr

/-- `UserPreferences`.  `heatingType` and `hotWaterSystem` stay strings
because `heatingUtils.ts` switches on strings with a default arm. -/
structure UserPreferences where
  postcode : String
  hasGarden : Bool
  hasEV : Bool
  hasSolar : Bool
  hasTimeOfUseTariff : Bool
  preferredTemperature : ℚ
  heatingType : String
  hotWaterSystem : String
deriving DecidableEq, Repr

/-- One entry of `GridData.fuelBreakdown`. -/
structure FuelItem where
  fuel : String
  perc : ℚ
  category : String
deriving DecidableEq, Repr

/-- `GridData` (live grid generation mix). -/
structure GridData where
  carbonIntensity : ℚ
  carbonIndex : String
  renewablePercent : ℚ
  fossilPercent : ℚ
  nuclearPercent : ℚ
  otherPercent : ℚ
  fuelBreakdown : List FuelItem
  timestamp : String
deriving DecidableEq, Repr

/-- The `'high' | 'medium' | 'low'` enum used for both `priority` and
`impact`. -/
inductive Level where
  | high
  | medium
  | low
deriving DecidableEq, Repr

/-- `timeStatus` values. -/
inductive TimeStatus where
  | active
  | passed
deriving DecidableEq, Repr

/-- Recommendation categories (engine-emitted recommendations always
carry one). -/
inductive Category where
  | heating
  | laundry
  | mobility
  | cooking
  | insulation
  | appliances
deriving DecidableEq, Repr

/-- The `day` label argument, `'today' | 'tomorrow'`. -/
inductive DayLabel where
  | today
  | tomorrow
deriving DecidableEq, Repr

/-- Interpolation text of the `day` label. -/
def DayLabel.str : DayLabel → String
  | .today => "today"
  | .tomorrow => "tomorrow"

/-- `Recommendation` (output type).  `timeStatus` is `none` until
`applyTimeStatus` assigns it. -/
structure Recommendation where
  id : String
  title : String
  description : String
  reasoning : String
  priority : Level
  savingsEstimate : Option String
  category : Category
  impact : Option Level
  timeStatus : Option TimeStatus
  isPersonalised : Bool
deriving DecidableEq, Repr

end EcoTuned

/-! ## Theorems for claim C8 -/

namespace EcoTuned

/-- C8: `getValidHotWaterOptions` returns exactly the listed options for
`gas`, `electric`, `heat-pump`, `oil` and `other`, returns all four
options for any unrecognized heating type, and consequently
`isValidHeatingCombination 'oil' 'combi'` is `false`. -/
theorem getValidHotWaterOptions_spec :
    getValidHotWaterOptions "gas" = ["combi", "tank", "other"] ∧
    getValidHotWaterOptions "electric" = ["tank", "electric", "other"] ∧
    getValidHotWaterOptions "heat-pump" = ["tank", "other"] ∧
    getValidHotWaterOptions "oil" = ["tank", "other"] ∧
    getValidHotWaterOptions "other" = ["combi", "tank", "electric", "other"] ∧
    (∀ s : String, s ∉ ["gas", "electric", "heat-pump", "oil", "other"] →
      getValidHotWaterOptions s = ["combi", "tank", "electric", "other"]) ∧
    isValidHeatingCombination "oil" "combi" = false := by
  refine ⟨by decide, by decide, by decide, by decide, by decide, ?_, by decide⟩
  intro s hs
  simp only [List.mem_cons, List.mem_singleton, not_or] at hs
  obtain ⟨h1, h2, h3, h4, h5, -⟩ := hs
  simp [getValidHotWaterOptions, h1, h2, h3, h4, h5]

/-- Witness for C8: the unrecognized-heating-type hypothesis discharged
at the concrete string `"banana"`. -/
theorem getValidHotWaterOptions_spec_witness :
    getValidHotWaterOptions "banana" = ["combi", "tank", "electric", "other"] :=
  getValidHotWaterOptions_spec.2.2.2.2.2.1 "banana" (by decide)

end EcoTuned

/-! ### `src/lib/api.ts`: weather feature extraction -/

namespace EcoTuned

/-- One hourly sample of `dayHourlyData` after the defaults of
`processDayWeather` (api.ts:275-286) have been applied. -/
structure DayHour where
  hour : Nat
  temp : ℚ
  cloudCoverage : ℚ
  rainProb : ℚ
  windSpeed : ℚ
  weatherCode : Nat
  solarRadiation : ℚ
  humidity : ℚ
deriving DecidableEq, Repr

/-- Humidity component of the drying score (api.ts:126-132), max 0.4. -/
def humidityComponent (humidity : ℚ) : ℚ :=
  if humidity < 50 then 2/5
  else if humidity < 70 then (2/5) * (1 - (humidity - 50) / 20)
  else if humidity < 85 then (1/5) * (1 - (humidity - 70) / 15)
  else 0

/-- Solar radiation component (api.ts:136-142), max 0.3. -/
def solarComponent (solarRadiation : ℚ) : ℚ :=
  if solarRadiation > 400 then 3/10
  else if solarRadiation > 200 then (3/10) * (solarRadiation / 400)
  else if solarRadiation > 100 then (3/20) * (solarRadiation / 200)
  else 0

/-- Wind component (api.ts:146-152), max 0.15; `windSpeedMph` already
converted from km/h. -/
def windComponent (windSpeedMph : ℚ) : ℚ :=
  if 8 ≤ windSpeedMph ∧ windSpeedMph ≤ 12 then 3/20
  else if 5 ≤ windSpeedMph ∧ windSpeedMph ≤ 20 then 1/10
  else if 20 < windSpeedMph ∧ windSpeedMph ≤ 25 then 1/20
  else 0

/-- Temperature component (api.ts:156-162), max 0.1. -/
def tempComponent (temp : ℚ) : ℚ :=
  if 21 ≤ temp then 1/10
  else if 15 ≤ temp then (1/10) * (temp - 15) / 6
  else if 5 ≤ temp then (1/20) * (temp - 5) / 10
  else 0

/-- Time-of-day component (api.ts:166-173), max 0.05, peaking at 3pm. -/
def timeOfDayComponent (hour : Nat) : ℚ :=
  if 12 ≤ hour ∧ hour ≤ 17 then
    (1/20) * (1 - (((hour : Int) - 15).natAbs : ℚ) / 5)
  else if 10 ≤ hour ∧ hour < 12 then 3/100
  else if 17 < hour ∧ hour ≤ 19 then 1/50
  else 0

/-- The score accumulated from the five components before the
moderate-rain penalty and the cap (the successive `score +=` statements
of api.ts:122-173). -/
def dryingBaseScore (h : DayHour) : ℚ :=
  humidityComponent h.humidity + solarComponent h.solarRadiation +
    windComponent (h.windSpeed * kmhToMph) + tempComponent h.temp +
    timeOfDayComponent h.hour

/-- `calculateDryingScore` (api.ts:111-181).  The `|| 0` defaults on
`solarRadiation`/`rainProb` are identities here because the caller
builds `DayHour` with defaults already applied (api.ts:281-285). -/
def calculateDryingScore (h : DayHour) : ℚ :=
  if h.rainProb > 40 then 0
  else
    let score := dryingBaseScore h
    let score := if h.rainProb > 20 ∧ h.rainProb ≤ 40 then score * (7/10) else score
    min score 1

/-- The `threshold = 0.4` of `findContinuousDryingPeriods`. -/
def dryingThreshold : ℚ := 2/5

/-- An entry of `hoursWithDryingScore` (api.ts:354-363). -/
structure ScoredHour where
  hour : Nat
  temp : Int
  cloudCoverage : ℚ
  solarRadiation : Int
  rainProbability : ℚ
  humidity : Int
  windSpeed : Int
  dryingScore : ℚ
deriving DecidableEq, Repr, Inhabited

/-- A period record emitted by `findContinuousDryingPeriods`
(api.ts:187-240). -/
structure RawPeriod where
  startHour : Nat
  endHour : Nat
  hours : List ScoredHour
  avgScore : ℚ
  duration : Nat
deriving DecidableEq, Repr

/-- Closing a run: the period record built at api.ts:213-221 from a
(nonempty) `currentPeriod`. -/
def closePeriod (c : List ScoredHour) : RawPeriod :=
  { startHour := (c.headD default).hour
    endHour := (c.getLastD default).hour
    hours := c
    avgScore := (c.map (·.dryingScore)).sum / c.length
    duration := c.length }

/-- The scan loop of `findContinuousDryingPeriods`, with the running
`currentPeriod` accumulator made explicit. -/
def findGo (current : List ScoredHour) : List ScoredHour → List RawPeriod
  | [] => if current.isEmpty then [] else [closePeriod current]
  | h :: t =>
    if dryingThreshold ≤ h.dryingScore then findGo (current ++ [h]) t
    else if current.isEmpty then findGo [] t
    else closePeriod current :: findGo [] t

/-- `findContinuousDryingPeriods` (api.ts:187-240). -/
def findContinuousDryingPeriods (l : List ScoredHour) : List RawPeriod :=
  findGo [] l

/-- Whether a list opens with an entry at or above the threshold. -/
def headAboveThreshold : List ScoredHour → Bool
  | [] => false
  | h :: _ => dryingThreshold ≤ h.dryingScore

/-- Extend the first run with one more leading entry (used when that
entry and the run it meets are part of one maximal run). -/
def consOntoHead (h : ScoredHour) : List (List ScoredHour) → List (List ScoredHour)
  | [] => [[h]]
  | r :: rs => (h :: r) :: rs

/-- Modelled from the claim: the maximal runs of consecutive entries
whose drying score is at least the threshold, in chronological order.
An above-threshold entry followed by an above-threshold entry belongs
to the same run as it; a sub-threshold entry separates runs and belongs
to no run. -/
def maximalRuns : List ScoredHour → List (List ScoredHour)
  | [] => []
  | h :: t =>
    if dryingThreshold ≤ h.dryingScore then
      if headAboveThreshold t then consOntoHead h (maximalRuns t)
      else [h] :: maximalRuns t
    else maximalRuns t

theorem headAboveThreshold_nil : headAboveThreshold [] = false := rfl

theorem headAboveThreshold_cons (h : ScoredHour) (t : List ScoredHour) :
    headAboveThreshold (h :: t) = decide (dryingThreshold ≤ h.dryingScore) := rfl

/-- What `findGo current l` produces, expressed through `maximalRuns`:
a pending nonempty accumulator is merged into the first run of `l` when
`l` opens above threshold, and closed on its own otherwise. -/
def mergeAcc (cur : List ScoredHour) (l : List ScoredHour) : List RawPeriod :=
  if cur.isEmpty then (maximalRuns l).map closePeriod
  else if headAboveThreshold l then
    match maximalRuns l with
    | [] => [closePeriod cur]
    | r :: rs => closePeriod (cur ++ r) :: rs.map closePeriod
  else closePeriod cur :: (maximalRuns l).map closePeriod

theorem mergeAcc_cons_ge (cur : List ScoredHour) (h : ScoredHour)
    (t : List ScoredHour) (hh : dryingThreshold ≤ h.dryingScore) :
    mergeAcc cur (h :: t) = mergeAcc (cur ++ [h]) t := by
  by_cases hat : headAboveThreshold t
  · rcases hmr : maximalRuns t with _ | ⟨r, rs⟩ <;>
      rcases cur with _ | ⟨c, cs⟩ <;>
        simp [mergeAcc, maximalRuns, consOntoHead, headAboveThreshold_cons, hh,
          hat, hmr, List.append_assoc]
  · rcases cur with _ | ⟨c, cs⟩ <;>
      simp [mergeAcc, maximalRuns, consOntoHead, headAboveThreshold_cons, hh, hat]

theorem mergeAcc_cons_lt (cur : List ScoredHour) (h : ScoredHour)
    (t : List ScoredHour) (hh : ¬ dryingThreshold ≤ h.dryingScore) :
    mergeAcc cur (h :: t) =
      if cur.isEmpty then mergeAcc [] t
      else closePeriod cur :: mergeAcc [] t := by
  rcases cur with _ | ⟨c, cs⟩ <;>
    simp [mergeAcc, maximalRuns, headAboveThreshold_cons, hh]

theorem findGo_eq_mergeAcc (l : List ScoredHour) :
    ∀ cur, findGo cur l = mergeAcc cur l := by
  induction l with
  | nil =>
    intro cur
    rcases cur with _ | ⟨c, cs⟩ <;>
      simp [findGo, mergeAcc, maximalRuns, headAboveThreshold_nil]
  | cons h t IH =>
    intro cur
    by_cases hh : dryingThreshold ≤ h.dryingScore
    · rw [findGo, if_pos hh, IH, mergeAcc_cons_ge cur h t hh]
    · rw [findGo, if_neg hh, mergeAcc_cons_lt cur h t hh]
      rcases cur with _ | ⟨c, cs⟩ <;> simp [IH]

end EcoTuned

/-! ## Theorems for claims C6 and C7 -/

namespace EcoTuned

/-- C6: the drying score is 0 whenever rain probability exceeds 40
(strictly, so 41 gives 0 and 40 does not take the hard-cutoff branch);
for rain probability in (20, 40] the accumulated component score is
multiplied by 0.7 (then capped); and the final score never exceeds 1. -/
theorem calculateDryingScore_spec (h : DayHour) :
    (40 < h.rainProb → calculateDryingScore h = 0) ∧
    (20 < h.rainProb → h.rainProb ≤ 40 →
      calculateDryingScore h = min (dryingBaseScore h * (7/10)) 1) ∧
    calculateDryingScore h ≤ 1 := by
  refine ⟨fun hr => by simp [calculateDryingScore, hr], fun h20 h40 => ?_, ?_⟩
  · have hn : ¬ h.rainProb > 40 := by linarith
    simp [calculateDryingScore, hn, h20, h40]
  · unfold calculateDryingScore
    split_ifs <;> simp [min_le_right]

/-- Witness for C6 at concrete hours: rain probability exactly 41 gives
score 0, and exactly 40 takes the 0.7-penalty branch instead of the
hard cutoff. -/
theorem calculateDryingScore_spec_witness :
    calculateDryingScore ⟨14, 18, 20, 41, 10, 1, 300, 55⟩ = 0 ∧
    calculateDryingScore ⟨14, 18, 20, 40, 10, 1, 300, 55⟩ =
      min (dryingBaseScore ⟨14, 18, 20, 40, 10, 1, 300, 55⟩ * (7/10)) 1 :=
  ⟨(calculateDryingScore_spec _).1 (by norm_num),
   (calculateDryingScore_spec _).2.1 (by norm_num) (by norm_num)⟩

/-- A concrete hour with the given hour-of-day and drying score, for
the worked continuous-period example of the claim. -/
def exampleScoredHour (hour : Nat) (score : ℚ) : ScoredHour :=
  { hour := hour, temp := 15, cloudCoverage := 20, solarRadiation := 300,
    rainProbability := 10, humidity := 60, windSpeed := 10,
    dryingScore := score }

/-- C7: the continuous drying periods are exactly the maximal runs of
consecutive hours scoring at least 0.4, each closed into a record
carrying the run's first and last hour, its length, and its average
score; on scores [0.1, 0.5, 0.6, 0.3, 0.5] (hours 0..4) exactly two
periods result, covering hours 1-2 and hour 4. -/
theorem findContinuousDryingPeriods_spec :
    (∀ l : List ScoredHour,
      findContinuousDryingPeriods l = (maximalRuns l).map closePeriod) ∧
    (findContinuousDryingPeriods
        [exampleScoredHour 0 (1/10), exampleScoredHour 1 (5/10),
         exampleScoredHour 2 (6/10), exampleScoredHour 3 (3/10),
         exampleScoredHour 4 (5/10)]).map
        (fun p => (p.startHour, p.endHour, p.duration, p.avgScore)) =
      [(1, 2, 2, 11/20), (4, 4, 1, 1/2)] := by
  constructor
  · intro l
    rw [findContinuousDryingPeriods, findGo_eq_mergeAcc, mergeAcc]
    simp
  · norm_num [findContinuousDryingPeriods, findGo, closePeriod,
      dryingThreshold, exampleScoredHour]

end EcoTuned

/-! ### `processDayWeather` (api.ts:259-450): hourly defaults and
aggregates -/

namespace EcoTuned

/-- One raw hourly sample of the requested day, before the defaults of
api.ts:275-286 are applied.  `rainProb`, `solarRadiation` and
`humidity` may be absent from the upstream response (`undefined`); the
`hour` field stands for `new Date(time).getHours()`. -/
structure RawHour where
  hour : Nat
  temp : ℚ
  cloudCoverage : ℚ
  rainProb : Option ℚ
  windSpeed : ℚ
  weatherCode : Nat
  solarRadiation : Option ℚ
  humidity : Option ℚ
deriving DecidableEq, Repr

/-- The `dayHourlyData` entry built at api.ts:276-286:
`rainProb: ... || 0`, `solarRadiation: ... || 0`, `humidity: ... || 50`. -/
def buildHour (r : RawHour) : DayHour :=
  { hour := r.hour
    temp := r.temp
    cloudCoverage := r.cloudCoverage
    rainProb := jsOrNum r.rainProb 0
    windSpeed := r.windSpeed
    weatherCode := r.weatherCode
    solarRadiation := jsOrNum r.solarRadiation 0
    humidity := jsOrNum r.humidity 50 }

/-- `dayHourlyData` (api.ts:275-287); the `.filter` on the date string
is left to the caller, so the argument is the day's samples. -/
def buildDayHourly (l : List RawHour) : List DayHour := l.map buildHour

/-- `avgHumidity` (api.ts:313-315): rounded mean of the hourly
humidity values. -/
def dayAvgHumidity (hs : List DayHour) : Int :=
  jsRound ((hs.map (·.humidity)).sum / hs.length)

/-- `hoursWithDryingScore` (api.ts:354-363). -/
def hoursWithDryingScore (hs : List DayHour) : List ScoredHour :=
  hs.map fun h =>
    { hour := h.hour
      temp := jsRound h.temp
      cloudCoverage := h.cloudCoverage
      solarRadiation := jsRound h.solarRadiation
      rainProbability := h.rainProb
      humidity := jsRound h.humidity
      windSpeed := jsRound (h.windSpeed * kmhToMph)
      dryingScore := calculateDryingScore h }

end EcoTuned

/-! ## Theorem for claim C10 -/

namespace EcoTuned

/-- C10: an hourly sample whose humidity reading is present but exactly
0 is treated identically to a missing reading — the `|| 50` default
substitutes 50 — and that substituted 50 is what enters the day's
average-humidity aggregate and every hour's drying score. -/
theorem humidity_zero_treated_as_missing (r : RawHour) (l1 l2 : List RawHour) :
    buildHour { r with humidity := some 0 } = buildHour { r with humidity := none } ∧
    (buildHour { r with humidity := some 0 }).humidity = 50 ∧
    dayAvgHumidity (buildDayHourly (l1 ++ { r with humidity := some 0 } :: l2)) =
      dayAvgHumidity (buildDayHourly (l1 ++ { r with humidity := none } :: l2)) ∧
    hoursWithDryingScore (buildDayHourly (l1 ++ { r with humidity := some 0 } :: l2)) =
      hoursWithDryingScore (buildDayHourly (l1 ++ { r with humidity := none } :: l2)) := by
  have hb : buildHour { r with humidity := some 0 } =
      buildHour { r with humidity := none } := by
    simp [buildHour, jsOrNum]
  refine ⟨hb, by simp [buildHour, jsOrNum], ?_, ?_⟩ <;>
    simp [buildDayHourly, hb]

end EcoTuned

/-! ### `src/lib/recommendations.ts`: helpers and rule templates -/

namespace EcoTuned

/-- An apostrophe (U+0027), for the two description strings containing
one. -/
def apos : String := String.singleton (Char.ofNat 39)

/-- `parseInt` on a string that opens with decimal digits: the value of
the longest digit prefix.  (The labels parsed by `applyTimeStatus`
always open with a digit, so the `NaN` case of `parseInt` is
unreachable there.) -/
def parseIntPrefix (s : String) : Nat :=
  (s.toList.takeWhile (·.isDigit)).foldl (fun n c => n * 10 + (c.toNat - 48)) 0

/-- `s.split(':')[0]`: the prefix before the first colon (the whole
string when there is none). -/
def splitColonHead (s : String) : String :=
  String.mk (s.toList.takeWhile (fun c => !(c == ':')))

/-- `h % 12 || 12`: the 12-hour clock number of an hour. -/
def jsHour12 (h : Nat) : Nat := if h % 12 = 0 then 12 else h % 12

/-- `${h % 12 || 12}${h >= 12 ? 'pm' : 'am'}` (recommendations.ts:708,
720): the 12-hour clock label of an hour. -/
def hourLabel12 (h : Nat) : String :=
  toString (jsHour12 h) ++ (if 12 ≤ h then "pm" else "am")

/-- `formatHour` (recommendations.ts:52-57). -/
def formatHour (h : Nat) : String :=
  if h = 0 then "12am"
  else if h < 12 then toString h ++ "am"
  else if h = 12 then "12pm"
  else toString (h - 12) ++ "pm"

/-- `priorityOrder` (recommendations.ts:508). -/
def priorityOrder : Level → Nat
  | .high => 0
  | .medium => 1
  | .low => 2

/-- `impactOrder` (recommendations.ts:509). -/
def impactOrder : Level → Nat
  | .high => 0
  | .medium => 1
  | .low => 2

/-- `shouldLineDry` (recommendations.ts:653-657). -/
def shouldLineDry (w : SimplifiedWeather) : Prop :=
  3 ≤ w.dryingHours ∧ w.windSpeedMph < 25

instance (w : SimplifiedWeather) : Decidable (shouldLineDry w) :=
  inferInstanceAs (Decidable (_ ∧ _))

/-- Result record of `getLineDryQuality`. -/
structure LineDryQuality where
  title : String
  reasoning : String
  priority : Level

/-- `getLineDryQuality` (recommendations.ts:662-689). -/
def getLineDryQuality (w : SimplifiedWeather) : LineDryQuality :=
  if 5 ≤ w.dryingHours ∧ w.rainProbability < 10 then
    { title := "Exceptional day for line-drying"
      reasoning := "Outstanding drying conditions with plenty of dry, sunny hours"
      priority := .high }
  else if 3 ≤ w.dryingHours ∧ w.dryingHours < 5 then
    { title := "Decent day for line-drying"
      reasoning := "Good drying conditions though hours are limited"
      priority := .medium }
  else
    { title := "Good day for line-drying"
      reasoning := "Suitable drying conditions"
      priority := .high }

/-- The `reduce` keeping the entry with the strictly larger solar
radiation (earliest entry wins ties), used at recommendations.ts:439,
703 and 715. -/
def reduceMaxSolar (h : SunnyPeriod) (t : List SunnyPeriod) : SunnyPeriod :=
  t.foldl (fun mx p => if p.solarRadiation > mx.solarRadiation then p else mx) h

/-- Result record of `findBestSolarPeriod`. -/
structure BestSolarPeriod where
  start : String
  end_ : String
  temp : Int
deriving DecidableEq, Repr

/-- The record built from a chosen period (recommendations.ts:707-711,
719-723): 12-hour labels of its hour and of its hour + 3. -/
def mkBestSolar (best : SunnyPeriod) : BestSolarPeriod :=
  { start := hourLabel12 best.hour
    end_ := hourLabel12 (best.hour + 3)
    temp := jsRound best.temp }

/-- `findBestSolarPeriod` (recommendations.ts:694-724): prefer the
highest-radiation period with hour in [11, 15], else the global
maximum. -/
def findBestSolarPeriod (ps : List SunnyPeriod) : BestSolarPeriod :=
  match ps with
  | [] => { start := "12pm", end_ := "3pm", temp := 15 }
  | h :: t =>
    match ps.filter (fun p => decide (11 ≤ p.hour ∧ p.hour ≤ 15)) with
    | [] => mkBestSolar (reduceMaxSolar h t)
    | m :: ms => mkBestSolar (reduceMaxSolar m ms)

/-- `${day === 'today' ? 'Today' : 'Tomorrow'}`. -/
def DayLabel.cap : DayLabel → String
  | .today => "Today"
  | .tomorrow => "Tomorrow"

/-- Stable insertion, descending by `avgScore` (ties keep original
order), modelling the stable `sort((a, b) => b.avgScore - a.avgScore)`
at recommendations.ts:48. -/
def insertByScoreDesc (x : ContinuousDryingPeriod) :
    List ContinuousDryingPeriod → List ContinuousDryingPeriod
  | [] => [x]
  | y :: ys =>
    if x.avgScore < y.avgScore then y :: insertByScoreDesc x ys
    else x :: y :: ys

/-- Stable descending sort by `avgScore`. -/
def sortByScoreDesc (l : List ContinuousDryingPeriod) : List ContinuousDryingPeriod :=
  l.foldr insertByScoreDesc []

/-- `timeWindowsText` of the line-dry rule (recommendations.ts:43-70). -/
def timeWindowsText (w : SimplifiedWeather) : String :=
  let bestPeriods :=
    (sortByScoreDesc
      (w.continuousDryingPeriods.filter (fun p => decide (1/2 ≤ p.avgScore)))).take 3
  if bestPeriods.isEmpty then ""
  else
    let timeWindows :=
      bestPeriods.map fun p => formatHour p.startHour ++ "-" ++ formatHour (p.endHour + 1)
    if timeWindows.length = 1 then
      " Best drying window: " ++ timeWindows.headD "" ++ "."
    else
      " Good drying windows: " ++ String.intercalate ", " timeWindows ++ "."

/-- The `line-dry` recommendation (recommendations.ts:29-82). -/
def lineDryRec (w : SimplifiedWeather) (day : DayLabel) : Recommendation :=
  let q := getLineDryQuality w
  let windNote :=
    if 10 ≤ w.windSpeedMph ∧ w.windSpeedMph ≤ 18 then
      " Breezy conditions will help speed up drying - peg items securely."
    else ""
  let humidityNote :=
    if w.avgHumidity < 60 then " Low humidity will help clothes dry faster."
    else if w.avgHumidity > 75 then " Higher humidity may slow drying slightly."
    else ""
  { id := "line-dry"
    title := q.title
    description := day.cap ++ " will have " ++ numStr w.dryingHours ++
      " hours of good drying conditions with " ++ numStr w.windSpeedMph ++
      "mph wind and " ++ numStr w.avgHumidity ++ "% humidity." ++
      timeWindowsText w ++ humidityNote ++ windNote
    reasoning := q.reasoning ++ " with low rain risk during sunny periods."
    priority := q.priority
    savingsEstimate := some "Save £0.60-£1.50 per load vs tumble dryer"
    category := .laundry
    impact := some .high
    timeStatus := none
    isPersonalised := true }

/-- The `indoor-dry` recommendation (recommendations.ts:86-96). -/
def indoorDryRec (w : SimplifiedWeather) (day : DayLabel) : Recommendation :=
  { id := "indoor-dry"
    title := "Good conditions for indoor drying"
    description := "Low humidity " ++ day.str ++ " (" ++ numStr w.avgHumidity ++
      "%) means clothes will dry quickly indoors without additional heating. Use a clothes airer near natural ventilation."
    reasoning := "Low humidity allows effective indoor drying, avoiding tumble dryer costs."
    priority := .medium
    savingsEstimate := some "Save £0.60-£1.50 per load vs tumble dryer"
    category := .laundry
    impact := some .high
    timeStatus := none
    isPersonalised := true }

/-- The `ev-solar-charging` recommendation (recommendations.ts:100-112). -/
def evSolarRec (w : SimplifiedWeather) : Recommendation :=
  let b := findBestSolarPeriod w.sunnyPeriods
  { id := "ev-solar-charging"
    title := "Charge your EV during peak solar hours"
    description := "Best charging window: " ++ b.start ++ "-" ++ b.end_ ++
      " when your solar panels will generate maximum power."
    reasoning := "Clear skies during midday hours with temperatures around " ++
      toString b.temp ++ "°C mean strong solar generation."
    priority := .high
    savingsEstimate := some "Save £2-£4 per charge"
    category := .mobility
    impact := some .high
    timeStatus := none
    isPersonalised := true }

/-- The `ev-offpeak-charging` recommendation (recommendations.ts:113-125). -/
def evOffpeakRec : Recommendation :=
  { id := "ev-offpeak-charging"
    title := "Charge your EV during off-peak hours"
    description := "Charge overnight (11pm-7am) to take advantage of cheaper electricity rates."
    reasoning := "Off-peak electricity is typically 50-70% cheaper than peak rates."
    priority := .high
    savingsEstimate := some "Save £1.50-£3.00 per charge"
    category := .mobility
    impact := some .high
    timeStatus := none
    isPersonalised := true }

/-- The `curtains-cold` recommendation (recommendations.ts:130-141). -/
def curtainsColdRec (w : SimplifiedWeather) : Recommendation :=
  { id := "curtains-cold"
    title := "Close curtains at dusk to retain heat"
    description := "Cold night ahead (dropping to " ++ numStr w.tempLow ++
      "°C). Close curtains and blinds at dusk to prevent heat loss."
    reasoning := "Curtains reduce heating needs by up to 15% with modern double-glazing."
    priority := .medium
    savingsEstimate := some "Save £0.10-£0.20 per day on heating"
    category := .insulation
    impact := some .medium
    timeStatus := none
    isPersonalised := true }

/-- The `curtains-hot` recommendation (recommendations.ts:142-155). -/
def curtainsHotRec (w : SimplifiedWeather) : Recommendation :=
  let isVeryHot := 26 ≤ w.tempHigh
  { id := "curtains-hot"
    title := if isVeryHot then "Keep sun-facing blinds closed"
             else "Close blinds during hot afternoon"
    description := (if isVeryHot then "Hot" else "Warm") ++ " day ahead (" ++
      numStr w.tempHigh ++
      "°C). Close curtains or blinds on sun-facing windows during peak afternoon heat."
    reasoning := "Blocking direct sunlight can reduce indoor temperatures by 7-10°C."
    priority := .low
    savingsEstimate := if isVeryHot then some "Save £0.05-£0.10 on fans" else none
    category := .insulation
    impact := some .low
    timeStatus := none
    isPersonalised := true }

/-- The `batch-hot-water` recommendation (recommendations.ts:163-174). -/
def batchHotWaterRec (w : SimplifiedWeather) (day : DayLabel) : Recommendation :=
  { id := "batch-hot-water"
    title := "Use hot water during off-peak hours"
    description := (if w.avgTemp < 5 then "Very cold" else "Cold") ++ " forecast " ++
      day.str ++ " (" ++ numStr w.tempLow ++ "-" ++ numStr w.tempHigh ++
      "°C). Schedule showers, dishwashing, and laundry for off-peak hours (11pm-7am) to benefit from cheaper rates."
    reasoning := "Off-peak electricity is 50-70% cheaper, and hot water waste heat helps warm your home."
    priority := .high
    savingsEstimate := some "Save £0.30-£0.60 per day"
    category := .heating
    impact := some .high
    timeStatus := none
    isPersonalised := true }

/-- The `efficient-hot-water` recommendation (recommendations.ts:177-187). -/
def efficientHotWaterRec (w : SimplifiedWeather) (day : DayLabel) : Recommendation :=
  { id := "efficient-hot-water"
    title := "Optimise hot water usage"
    description := (if w.avgTemp < 5 then "Very cold" else "Cold") ++ " forecast " ++
      day.str ++ " (" ++ numStr w.tempLow ++ "-" ++ numStr w.tempHigh ++
      "°C). Keep showers short and batch hot water tasks together to maximise efficiency."
    reasoning := "Waste heat from hot water helps warm your home when it is needed most."
    priority := .medium
    savingsEstimate := some "Save £0.20-£0.40 per day"
    category := .heating
    impact := some .medium
    timeStatus := none
    isPersonalised := true }

/-- The `natural-ventilation` recommendation (recommendations.ts:194-204). -/
def naturalVentilationRec (w : SimplifiedWeather) (p : UserPreferences)
    (day : DayLabel) : Recommendation :=
  { id := "natural-ventilation"
    title := "Consider turning off heating"
    description := "Mild temperatures " ++ day.str ++ " (" ++ numStr w.tempHigh ++
      "°C) will reach your preferred temperature of " ++
      numStr p.preferredTemperature ++ "°C - ideal conditions for natural ventilation."
    reasoning := "Outdoor temperatures will match your comfort level, making heating unnecessary."
    priority := .high
    savingsEstimate := some "Save £0.50-£1.50 on heating"
    category := .heating
    impact := some .high
    timeStatus := none
    isPersonalised := true }

/-- The `avoid-heat-generating` recommendation (recommendations.ts:206-216). -/
def avoidHeatGeneratingRec (w : SimplifiedWeather) (day : DayLabel) : Recommendation :=
  { id := "avoid-heat-generating"
    title := "Minimise heat-generating activities"
    description := "Warm " ++
      (if day = .today then "weather today" else "day ahead") ++ " (" ++
      numStr w.tempHigh ++ "°C). Use microwave instead of oven, or cook outdoors."
    reasoning := "An hour of oven use adds 2-3kWh of heat to your home."
    priority := .low
    savingsEstimate := some "Save £0.05-£0.15 on fans"
    category := .cooking
    impact := some .low
    timeStatus := none
    isPersonalised := false }

/-- The `hot-day-cooking` recommendation (recommendations.ts:218-228). -/
def hotDayCookingRec (w : SimplifiedWeather) (day : DayLabel) : Recommendation :=
  { id := "hot-day-cooking"
    title := "Avoid oven use today"
    description := "Very warm " ++
      (if day = .today then "weather today" else "day ahead") ++ " (" ++
      numStr w.tempHigh ++ "°C). Consider salads, sandwiches, microwave meals, or BBQ."
    reasoning := "Oven heat significantly increases indoor temperature and fan usage."
    priority := .low
    savingsEstimate := some "Save £0.05-£0.15 on fans"
    category := .cooking
    impact := some .low
    timeStatus := none
    isPersonalised := false }

/-- The `rainy-day-cooking` recommendation (recommendations.ts:234-245). -/
def rainyDayCookingRec (day : DayLabel) : Recommendation :=
  { id := "rainy-day-cooking"
    title := "Good day for batch cooking"
    description := "Cold and wet " ++ day.str ++
      " - ideal for batch cooking. Prep multiple meals at once while the oven heat helps warm your home."
    reasoning := "Oven heat reduces heating costs on cold days, and batch cooking 4+ meals saves ~3 hours of oven time over the week."
    priority := .medium
    savingsEstimate := some "Save £0.50-£0.70 per batch session"
    category := .cooking
    impact := some .medium
    timeStatus := none
    isPersonalised := false }

end EcoTuned

namespace EcoTuned

/-- The `heat-pump-optimal` recommendation (recommendations.ts:251-262). -/
def heatPumpOptimalRec (w : SimplifiedWeather) (day : DayLabel) : Recommendation :=
  { id := "heat-pump-optimal"
    title := "Optimal conditions for your heat pump"
    description := "Temperatures " ++ day.str ++ " (" ++ numStr w.avgTemp ++
      "°C) are ideal for heat pump efficiency. Your system will use 30-40% less energy than in very cold weather."
    reasoning := "Heat pumps are most efficient between 5-15°C. Take advantage by maintaining comfortable temperatures without worry."
    priority := .medium
    savingsEstimate := some "Save £0.40-£0.80 per day vs colder weather"
    category := .heating
    impact := some .high
    timeStatus := none
    isPersonalised := true }

/-- The `heat-pump-cold-weather` recommendation (recommendations.ts:264-275). -/
def heatPumpColdWeatherRec (w : SimplifiedWeather) (day : DayLabel) : Recommendation :=
  { id := "heat-pump-cold-weather"
    title := "Prepare for reduced heat pump efficiency"
    description := "Very cold forecast " ++ day.str ++ " (low of " ++
      numStr w.tempLow ++
      "°C). Your heat pump will work harder. Pre-warm your home during milder afternoon hours."
    reasoning := "Heat pumps lose efficiency below 0°C. Pre-warming reduces strain during coldest periods."
    priority := .medium
    savingsEstimate := some "Save £0.30-£0.50 by pre-warming"
    category := .heating
    impact := some .medium
    timeStatus := none
    isPersonalised := true }

/-- The `gas-mild-weather` recommendation (recommendations.ts:282-301);
`suggestedTemp = max(15, round((preferred - 1.5) * 2) / 2)`. -/
def gasMildWeatherRec (w : SimplifiedWeather) (p : UserPreferences)
    (day : DayLabel) : Recommendation :=
  let suggestedTemp : ℚ :=
    max 15 ((jsRound ((p.preferredTemperature - 3/2) * 2) : ℚ) / 2)
  { id := "gas-mild-weather"
    title := "Reduce gas heating in mild weather"
    description := "Mild temperatures " ++ day.str ++ " (" ++ numStr w.avgTemp ++
      "°C) mean you can reduce your thermostat to " ++ numStr suggestedTemp ++
      "°C (from " ++ numStr p.preferredTemperature ++
      "°C) without discomfort. Layer up with a jumper for extra warmth."
    reasoning := "Each 1°C reduction saves 10-13% on gas heating costs. Mild weather is ideal for comfort at lower settings."
    priority := .medium
    savingsEstimate := some "Save £0.10-£0.25 per day"
    category := .heating
    impact := some .medium
    timeStatus := none
    isPersonalised := true }

/-- The `gas-cold-preheat` recommendation (recommendations.ts:304-320);
`preheat = min(25, preferred + 1)`, `night = max(15, preferred - 1)`. -/
def gasColdPreheatRec (w : SimplifiedWeather) (p : UserPreferences) : Recommendation :=
  let preheatTemp : ℚ := min 25 (p.preferredTemperature + 1)
  let nightTemp : ℚ := max 15 (p.preferredTemperature - 1)
  { id := "gas-cold-preheat"
    title := "Pre-heat before cold snap"
    description := "Very cold night ahead (" ++ numStr w.tempLow ++
      "°C). Pre-heat your home to " ++ numStr preheatTemp ++
      "°C in the evening (6-8pm), then reduce to " ++ numStr nightTemp ++
      "°C overnight. This reduces strain on your boiler during the coldest hours."
    reasoning := "Gas boilers are less efficient in very cold weather. Pre-heating while temperatures are milder saves energy."
    priority := .medium
    savingsEstimate := some "Save £0.25-£0.50 per day"
    category := .heating
    impact := some .medium
    timeStatus := none
    isPersonalised := true }

/-- The `gas-solar-electric` recommendation (recommendations.ts:323-336). -/
def gasSolarElectricRec (w : SimplifiedWeather) (day : DayLabel) : Recommendation :=
  { id := "gas-solar-electric"
    title := "Use electric appliances during solar hours"
    description := "Strong solar generation " ++ day.str ++ " (" ++
      numStr w.sunnyHours ++
      " sunny hours). Use electric kettle, microwave, and washing machine during peak sun hours instead of gas stove/oven. Your solar panels will power these for free."
    reasoning := "Solar electricity is free once panels are installed. Using electric appliances instead of gas during solar hours maximises savings."
    priority := .medium
    savingsEstimate := some "Save £0.15-£0.40 per day"
    category := .appliances
    impact := some .medium
    timeStatus := none
    isPersonalised := true }

/-- The `oil-mild-weather` recommendation (recommendations.ts:342-360);
the reduction is 2°C. -/
def oilMildWeatherRec (w : SimplifiedWeather) (p : UserPreferences)
    (day : DayLabel) : Recommendation :=
  let suggestedTemp : ℚ :=
    max 15 ((jsRound ((p.preferredTemperature - 2) * 2) : ℚ) / 2)
  { id := "oil-mild-weather"
    title := "Reduce oil heating in mild weather"
    description := "Mild temperatures " ++ day.str ++ " (" ++ numStr w.avgTemp ++
      "°C) mean you can reduce your thermostat to " ++ numStr suggestedTemp ++
      "°C (from " ++ numStr p.preferredTemperature ++
      "°C). Layer up with a jumper or blanket to stay comfortable. Make sure you still feel warm enough."
    reasoning := "Each 1°C reduction saves 10-13% on heating costs. Oil heating costs 9-11p/kWh vs 6.29p/kWh for gas. We don" ++
      apos ++ "t suggest going below 15°C."
    priority := .medium
    savingsEstimate := some "Save £0.20-£0.35 per day"
    category := .heating
    impact := some .medium
    timeStatus := none
    isPersonalised := true }

/-- The `oil-cold-weather` recommendation (recommendations.ts:364-379);
the interpolated `zoneReduction` is the constant 4. -/
def oilColdWeatherRec (w : SimplifiedWeather) (day : DayLabel) : Recommendation :=
  { id := "oil-cold-weather"
    title := "Use zone heating to save on oil"
    description := "Very cold " ++ day.str ++ " (" ++ numStr w.tempLow ++
      "°C). Close doors and reduce heating in unused rooms by 4°C. Focus your heating budget on the rooms you actually use, keeping them comfortable whilst reducing costs."
    reasoning := "Oil boilers are less efficient in very cold weather. Zone heating reduces the volume of space being heated, significantly cutting costs. Keep occupied rooms at a comfortable temperature."
    priority := .high
    savingsEstimate := some "Save £1.00-£1.50 per day"
    category := .heating
    impact := some .high
    timeStatus := none
    isPersonalised := true }

/-- The `oil-batch-heating` recommendation (recommendations.ts:387-402);
`batchTemp = min(25, preferred + 1)`. -/
def oilBatchHeatingRec (w : SimplifiedWeather) (p : UserPreferences)
    (day : DayLabel) : Recommendation :=
  let batchTemp : ℚ := min 25 (p.preferredTemperature + 1)
  { id := "oil-batch-heating"
    title := "Consider batch heating if well-insulated"
    description := "Stable mild weather " ++ day.str ++ " (" ++ numStr w.tempLow ++
      "-" ++ numStr w.tempHigh ++ "°C). You could heat to " ++ numStr batchTemp ++
      "°C twice daily (morning and evening) instead of constant low heat - but only if your home is well-insulated enough to retain heat between cycles. Make sure you can stay comfortable as temperatures drop between heating periods."
    reasoning := "Oil boilers are more efficient at higher output for shorter periods. This approach suits well-insulated homes where temperature drops slowly between heating cycles."
    priority := .low
    savingsEstimate := some "Save £0.30-£0.50 per day"
    category := .heating
    impact := some .medium
    timeStatus := none
    isPersonalised := true }

/-- The `tank-mild-night` recommendation (recommendations.ts:408-418). -/
def tankMildNightRec (w : SimplifiedWeather) : Recommendation :=
  { id := "tank-mild-night"
    title := "Heat hot water tank during off-peak"
    description := "Mild night ahead (" ++ numStr w.tempLow ++
      "°C low) means less heat loss from your tank. Heat during off-peak hours (11pm-7am) for maximum savings."
    reasoning := "Warmer nights reduce tank heat loss, making off-peak heating more efficient."
    priority := .medium
    savingsEstimate := some "Save £0.20-£0.35 per day"
    category := .heating
    impact := some .medium
    timeStatus := none
    isPersonalised := true }

/-- The `tank-cold-night` recommendation (recommendations.ts:420-431). -/
def tankColdNightRec (w : SimplifiedWeather) : Recommendation :=
  { id := "tank-cold-night"
    title := "Heat hot water tank before peak cold"
    description := "Cold night forecast (" ++ numStr w.tempLow ++
      "°C). Heat your tank during afternoon/evening to reduce overnight heat loss."
    reasoning := "Very cold nights increase tank heat loss. Pre-heating when warmer is more efficient."
    priority := .medium
    savingsEstimate := some "Save £0.15-£0.25 vs overnight heating"
    category := .heating
    impact := some .medium
    timeStatus := none
    isPersonalised := true }

/-- The `electric-heating-solar` recommendation (recommendations.ts:443-454);
the window is `hour:00-(hour+2):00` of the chosen peak. -/
def electricHeatingSolarRec (day : DayLabel) (solarPeak : SunnyPeriod) : Recommendation :=
  { id := "electric-heating-solar"
    title := "Use electric heating during peak solar generation"
    description := "Strong solar generation " ++ day.str ++
      " - run electric heating " ++ toString solarPeak.hour ++ ":00-" ++
      toString (solarPeak.hour + 2) ++ ":00 to use your own electricity."
    reasoning := "Electric heating powered by your solar panels is essentially free and zero-carbon."
    priority := .high
    savingsEstimate := some "Save £1-£2 per day"
    category := .heating
    impact := some .high
    timeStatus := none
    isPersonalised := true }

/-- The `off-peak-appliances` recommendation (recommendations.ts:460-470). -/
def offPeakAppliancesRec (day : DayLabel) : Recommendation :=
  { id := "off-peak-appliances"
    title := "Run dishwasher and washing machine overnight"
    description := "Set your dishwasher and washing machine to run during off-peak hours " ++
      (if day = .today then "tonight" else "tomorrow night") ++ " (11pm-7am)."
    reasoning := "Off-peak electricity is typically 50-70% cheaper than peak rates."
    priority := .medium
    savingsEstimate := some "Save £0.15-£0.30 per cycle"
    category := .appliances
    impact := some .medium
    timeStatus := none
    isPersonalised := true }

/-- The `grid-clean-now` recommendation (recommendations.ts:480-489). -/
def gridCleanNowRec (g : GridData) : Recommendation :=
  let windStr :=
    match g.fuelBreakdown.find? (fun f => decide (f.fuel = "wind")) with
    | some f => toString (jsToFixed0 f.perc)
    | none => "0"
  let solarStr :=
    match g.fuelBreakdown.find? (fun f => decide (f.fuel = "solar")) with
    | some f => toString (jsToFixed0 f.perc)
    | none => "0"
  { id := "grid-clean-now"
    title := "Great time to run appliances"
    description := "The GB grid is currently powered by " ++
      toString (jsToFixed0 g.renewablePercent) ++ "% renewable energy (" ++
      windStr ++ "% wind, " ++ solarStr ++
      "% solar). This is a cleaner-than-average time to use electricity. Consider running your dishwasher, washing machine, or other high-energy appliances now."
    reasoning := "High renewable generation means lower carbon emissions per kWh. Current carbon intensity is " ++
      (if 0 < g.carbonIntensity then numStr g.carbonIntensity ++ " g/kWh"
       else g.carbonIndex) ++ ", compared to UK average of ~200 g/kWh."
    priority := if 60 ≤ g.renewablePercent then .high else .medium
    savingsEstimate := none
    category := .appliances
    impact := some .high
    timeStatus := none
    isPersonalised := false }

/-- The `grid-low-carbon` recommendation (recommendations.ts:494-503). -/
def gridLowCarbonRec (g : GridData) : Recommendation :=
  { id := "grid-low-carbon"
    title := "Low carbon intensity right now"
    description := "The grid" ++ apos ++ "s carbon intensity is currently " ++
      numStr g.carbonIntensity ++ " g/kWh (" ++ g.carbonIndex ++
      "), which is lower than the UK average of ~200 g/kWh. A good time to use electricity-intensive appliances like ovens, washing machines, or electric heating."
    reasoning := "Taking advantage of lower carbon intensity reduces environmental impact. Current: " ++
      numStr g.carbonIntensity ++ " g/kWh vs UK average: ~200 g/kWh."
    priority := .medium
    savingsEstimate := none
    category := .appliances
    impact := some .medium
    timeStatus := none
    isPersonalised := false }

end EcoTuned

/-! ### Rule evaluation and selection pipeline -/

namespace EcoTuned

/-- Block 1 (recommendations.ts:29-97): line-dry / indoor-dry chain. -/
def laundryBlock (w : SimplifiedWeather) (p : UserPreferences)
    (day : DayLabel) : List Recommendation :=
  if p.hasGarden ∧ shouldLineDry w then [lineDryRec w day]
  else if w.avgHumidity < 50 ∧ w.dryingHours < 3 then [indoorDryRec w day]
  else []

/-- Block 2 (recommendations.ts:100-126): EV charging chain. -/
def evBlock (w : SimplifiedWeather) (p : UserPreferences) : List Recommendation :=
  if p.hasEV ∧ p.hasSolar ∧ w.sunnyPeriods ≠ [] then [evSolarRec w]
  else if p.hasEV ∧ ¬ p.hasSolar ∧ p.hasTimeOfUseTariff then [evOffpeakRec]
  else []

/-- Block 3 (recommendations.ts:130-155): curtains chain. -/
def curtainsBlock (w : SimplifiedWeather) : List Recommendation :=
  if w.avgTemp < 10 ∧ w.tempLow < 5 then [curtainsColdRec w]
  else if 22 ≤ w.avgTemp ∧ 4 ≤ w.sunnyHours then [curtainsHotRec w]
  else []

/-- Block 5 (recommendations.ts:158-229): hot-water / ventilation /
cooking chain keyed on `avgTemp`. -/
def heatingChainBlock (w : SimplifiedWeather) (p : UserPreferences)
    (day : DayLabel) : List Recommendation :=
  if w.avgTemp < 12 then
    if p.hasTimeOfUseTariff then [batchHotWaterRec w day]
    else [efficientHotWaterRec w day]
  else if p.preferredTemperature ≤ w.tempHigh ∧ w.avgTemp < 21 ∧
      p.preferredTemperature - 3 < w.tempLow then [naturalVentilationRec w p day]
  else if 22 ≤ w.avgTemp ∧ w.avgTemp < 26 then [avoidHeatGeneratingRec w day]
  else if 26 ≤ w.avgTemp then [hotDayCookingRec w day]
  else []

/-- Block 6 (recommendations.ts:233-246): weekend rainy-day cooking. -/
def rainyBlock (w : SimplifiedWeather) (day : DayLabel)
    (isWeekend : Bool) : List Recommendation :=
  if isWeekend ∧ w.rainProbability > 70 ∧ w.avgTemp < 15 then [rainyDayCookingRec day]
  else []

/-- Block 7 (recommendations.ts:249-277): heat-pump chain — note the
`else if`: `heat-pump-cold-weather` only fires when the optimal-range
branch did not. -/
def heatPumpBlock (w : SimplifiedWeather) (p : UserPreferences)
    (day : DayLabel) : List Recommendation :=
  if p.heatingType = "heat-pump" then
    if 5 ≤ w.avgTemp ∧ w.avgTemp ≤ 15 then [heatPumpOptimalRec w day]
    else if w.tempLow < 0 then [heatPumpColdWeatherRec w day]
    else []
  else []

/-- Block 8 (recommendations.ts:280-337): three independent gas rules. -/
def gasBlock (w : SimplifiedWeather) (p : UserPreferences)
    (day : DayLabel) : List Recommendation :=
  if p.heatingType = "gas" then
    (if 12 ≤ w.avgTemp ∧ w.avgTemp ≤ 18 then [gasMildWeatherRec w p day] else [])
    ++ (if w.tempLow < 5 ∧ day = .tomorrow then [gasColdPreheatRec w p] else [])
    ++ (if p.hasSolar ∧ w.sunnyHours > 3 then [gasSolarElectricRec w day] else [])
  else []

/-- Block 9 (recommendations.ts:340-403): three independent oil rules. -/
def oilBlock (w : SimplifiedWeather) (p : UserPreferences)
    (day : DayLabel) : List Recommendation :=
  if p.heatingType = "oil" then
    (if 12 ≤ w.avgTemp ∧ w.avgTemp ≤ 18 then [oilMildWeatherRec w p day] else [])
    ++ (if w.tempLow < 5 then [oilColdWeatherRec w day] else [])
    ++ (if 10 ≤ w.avgTemp ∧ w.avgTemp ≤ 16 ∧ |w.tempHigh - w.tempLow| < 8 then
          [oilBatchHeatingRec w p day]
        else [])
  else []

/-- Block 10 (recommendations.ts:406-433): hot-water-tank chain. -/
def tankBlock (w : SimplifiedWeather) (p : UserPreferences) : List Recommendation :=
  if p.hotWaterSystem = "tank" ∧ p.hasTimeOfUseTariff then
    if w.tempLow > 10 then [tankMildNightRec w]
    else if w.tempLow < 5 then [tankColdNightRec w]
    else []
  else []

/-- Block 11 (recommendations.ts:436-456): electric heating with solar;
the peak is the global radiation maximum of `sunnyPeriods` (`null` when
empty). -/
def electricSolarBlock (w : SimplifiedWeather) (p : UserPreferences)
    (day : DayLabel) : List Recommendation :=
  if p.heatingType = "electric" ∧ p.hasSolar ∧ w.sunnyHours > 3 then
    match w.sunnyPeriods with
    | [] => []
    | h :: t => [electricHeatingSolarRec day (reduceMaxSolar h t)]
  else []

/-- Block 12 (recommendations.ts:459-471): off-peak appliances. -/
def offPeakBlock (p : UserPreferences) (day : DayLabel) : List Recommendation :=
  if p.hasTimeOfUseTariff then [offPeakAppliancesRec day] else []

/-- Block 13 (recommendations.ts:474-505): grid-aware rules (today
only, live data required). -/
def gridBlock (isToday : Bool) (day : DayLabel)
    (gridData : Option GridData) : List Recommendation :=
  if isToday ∧ day = .today then
    match gridData with
    | none => []
    | some g =>
      (if 50 ≤ g.renewablePercent then [gridCleanNowRec g] else [])
      ++ (if 0 < g.carbonIntensity ∧ g.carbonIntensity < 150 ∧
            g.renewablePercent < 50 then [gridLowCarbonRec g]
          else [])
  else []

/-- The rule-evaluation stage of `generateRecommendations`
(recommendations.ts:21-505): the sequence of conditional pushes into
`recommendations`, as the concatenation of the independent blocks in
source order.  `isWeekend` comes from the weather date
(recommendations.ts:24-26). -/
def ruleRecommendations (w : SimplifiedWeather) (p : UserPreferences)
    (isToday : Bool) (day : DayLabel) (gridData : Option GridData) :
    List Recommendation :=
  let isWeekend : Bool := decide (w.date.getDay = 0) || decide (w.date.getDay = 6)
  laundryBlock w p day
    ++ evBlock w p
    ++ curtainsBlock w
    ++ heatingChainBlock w p day
    ++ rainyBlock w day isWeekend
    ++ heatPumpBlock w p day
    ++ gasBlock w p day
    ++ oilBlock w p day
    ++ tankBlock w p
    ++ electricSolarBlock w p day
    ++ offPeakBlock p day
    ++ gridBlock isToday day gridData

/-- The comparator of recommendations.ts:510-514 orders `a` strictly
before `b` when it returns a negative number on `(a, b)`: smaller
priority rank first, then smaller impact rank (missing impact read as
`medium`). -/
def recBefore (a b : Recommendation) : Prop :=
  priorityOrder a.priority < priorityOrder b.priority ∨
    (priorityOrder a.priority = priorityOrder b.priority ∧
      impactOrder (a.impact.getD .medium) < impactOrder (b.impact.getD .medium))

instance (a b : Recommendation) : Decidable (recBefore a b) :=
  inferInstanceAs (Decidable (_ ∨ _))

/-- Stable insertion for `recBefore`: an element is placed before the
first entry that does not strictly precede it, so ties keep the
original order. -/
def insertRecSorted (a : Recommendation) :
    List Recommendation → List Recommendation
  | [] => [a]
  | b :: l => if recBefore b a then b :: insertRecSorted a l else a :: b :: l

/-- The `recommendations.sort(...)` call (recommendations.ts:510-514).
ES2019 `Array.prototype.sort` is stable, and a stable sort for a given
total preorder is unique, so stable insertion sort computes it. -/
def sortRecs (l : List Recommendation) : List Recommendation :=
  l.foldr insertRecSorted []

/-- Category occurrences in a list.  The source threads a
`categoryCount` record through `applyCategoryDiversity`; it is bumped
exactly when an entry is pushed in the first three passes and never
read afterwards, so it always equals this count over the result. -/
def categoryCountIn (l : List Recommendation) (c : Category) : Nat :=
  l.countP (fun r => decide (r.category = c))

/-- First diversity pass (recommendations.ts:538-543): every
high-priority, high-impact, personalised entry, no cap. -/
def diversityPassOne (recs : List Recommendation) : List Recommendation :=
  recs.filter fun r =>
    decide (r.priority = Level.high) && decide (r.impact = some Level.high) &&
      r.isPersonalised

/-- Second and third diversity passes (recommendations.ts:547-572):
append entries not already selected (subject to the personalised-only
restriction of pass two) while their category stays under the cap
of 2.  `result.includes(rec)` is reference equality in the source;
engine-emitted lists have pairwise-distinct ids, so structural
membership coincides with it. -/
def diversityCappedAdd (onlyPersonalised : Bool) (recs : List Recommendation)
    (init : List Recommendation) : List Recommendation :=
  recs.foldl
    (fun result rec =>
      if result.contains rec then result
      else if onlyPersonalised && !rec.isPersonalised then result
      else if categoryCountIn result rec.category < 2 then result ++ [rec]
      else result)
    init

/-- Fourth pass (recommendations.ts:575-581): when fewer than 4 are
selected, fill from the remaining entries in order, ignoring the
category cap, until 4 are reached. -/
def diversityRelaxedFill (recs : List Recommendation)
    (init : List Recommendation) : List Recommendation :=
  if init.length < 4 then
    recs.foldl
      (fun result rec =>
        if result.contains rec then result
        else if 4 ≤ result.length then result
        else result ++ [rec])
      init
  else init

/-- `applyCategoryDiversity` (recommendations.ts:532-584). -/
def applyCategoryDiversity (recs : List Recommendation) : List Recommendation :=
  diversityRelaxedFill recs
    (diversityCappedAdd false recs
      (diversityCappedAdd true recs (diversityPassOne recs)))

/-- `applyTimeStatus` (recommendations.ts:609-647), with the wall-clock
UK hour injected.  For `ev-solar-charging` the source compares the
current hour against `parseInt(bestPeriod.end.split(':')[0])`, i.e.
against the digits opening the 12-hour label. -/
def applyTimeStatus (recs : List Recommendation) (w : SimplifiedWeather)
    (isToday : Bool) (currentUKHour : Nat) : List Recommendation :=
  if !isToday then recs.map fun r => { r with timeStatus := some .active }
  else
    recs.map fun r =>
      let ts : TimeStatus := .active
      let ts :=
        if r.id = "line-dry" ∧ (w.sunsetHour : Int) - 2 ≤ (currentUKHour : Int) then
          .passed
        else ts
      let ts :=
        if r.id = "ev-solar-charging" ∧ w.sunnyPeriods ≠ [] ∧
            parseIntPrefix (splitColonHead (findBestSolarPeriod w.sunnyPeriods).end_) ≤
              currentUKHour then
          .passed
        else ts
      { r with timeStatus := some ts }

/-- `generateRecommendations` (recommendations.ts:14-526): evaluate all
rule blocks, sort by priority then impact, apply category diversity,
keep the top 4, and annotate time status. -/
def generateRecommendations (w : SimplifiedWeather) (p : UserPreferences)
    (isToday : Bool) (day : DayLabel) (gridData : Option GridData)
    (currentUKHour : Nat) : List Recommendation :=
  applyTimeStatus
    ((applyCategoryDiversity
        (sortRecs (ruleRecommendations w p isToday day gridData))).take 4)
    w isToday currentUKHour

end EcoTuned

/-! ## Sortedness of the comparator stage, and theorems for claim C1 -/

namespace EcoTuned

theorem recBefore_asymm {a b : Recommendation} (h : recBefore a b) :
    ¬ recBefore b a := by
  simp only [recBefore] at *
  omega

theorem notRecBefore_trans {a b c : Recommendation} (h1 : ¬ recBefore b a)
    (h2 : ¬ recBefore c b) : ¬ recBefore c a := by
  simp only [recBefore] at *
  omega

theorem insertRecSorted_perm (a : Recommendation) (l : List Recommendation) :
    List.Perm (insertRecSorted a l) (a :: l) := by
  induction l with
  | nil => rfl
  | cons b t IH =>
    rw [insertRecSorted]
    split_ifs
    · exact (IH.cons b).trans (List.Perm.swap a b t)
    · rfl

theorem mem_insertRecSorted {x a : Recommendation} {l : List Recommendation} :
    x ∈ insertRecSorted a l ↔ x = a ∨ x ∈ l := by
  rw [(insertRecSorted_perm a l).mem_iff, List.mem_cons]

theorem pairwise_insertRecSorted (a : Recommendation) :
    ∀ {l : List Recommendation},
      l.Pairwise (fun x y => ¬ recBefore y x) →
      (insertRecSorted a l).Pairwise (fun x y => ¬ recBefore y x) := by
  intro l
  induction l with
  | nil => intro _; simp [insertRecSorted]
  | cons b t IH =>
    intro h
    rw [List.pairwise_cons] at h
    obtain ⟨hb, hp⟩ := h
    rw [insertRecSorted]
    split_ifs with hba
    · rw [List.pairwise_cons]
      refine ⟨?_, IH hp⟩
      intro x hx
      rcases mem_insertRecSorted.mp hx with rfl | hx
      · exact recBefore_asymm hba
      · exact hb x hx
    · rw [List.pairwise_cons]
      refine ⟨?_, List.pairwise_cons.mpr ⟨hb, hp⟩⟩
      intro x hx
      rcases List.mem_cons.mp hx with rfl | hx
      · exact hba
      · exact notRecBefore_trans hba (hb x hx)

theorem sortRecs_pairwise (l : List Recommendation) :
    (sortRecs l).Pairwise (fun x y => ¬ recBefore y x) := by
  induction l with
  | nil => simp [sortRecs]
  | cons a t IH => exact pairwise_insertRecSorted a IH

theorem sortRecs_perm (l : List Recommendation) :
    List.Perm (sortRecs l) l := by
  induction l with
  | nil => rfl
  | cons a t IH => exact (insertRecSorted_perm a (sortRecs t)).trans (IH.cons a)

/-- C1 (amended): the list produced by the priority/impact sort — the
input to the category-diversity selection — is ordered by priority:
adjacent pairs have non-decreasing priority rank (high=0, medium=1,
low=2).  The final output of `generateRecommendations` need not be (see
the counterexample): the diversity selection moves personalised items
ahead of non-personalised ones across priority levels. -/
theorem sorted_rules_priority_ordered (w : SimplifiedWeather)
    (p : UserPreferences) (isToday : Bool) (day : DayLabel)
    (gridData : Option GridData) :
    List.Chain'
      (fun a b => priorityOrder a.priority ≤ priorityOrder b.priority)
      (sortRecs (ruleRecommendations w p isToday day gridData)) := by
  refine List.Pairwise.chain' (List.Pairwise.imp ?_ (sortRecs_pairwise _))
  intro a b h
  simp only [recBefore] at h
  omega

/-- Weather for the C1/C3 counterexample scenarios: a mild midweek day
firing no weather-only rules. -/
def cxWeatherMild : SimplifiedWeather :=
  { date := ⟨2025, 1, 8⟩, tempHigh := 21, tempLow := 10, avgTemp := 20,
    tempNow := none, conditions := "Clear", conditionsRange := none,
    cloudCoveragePercent := 20, windSpeedMph := 8, windSpeedMax := 12,
    rainProbability := 20, avgHumidity := 60, sunnyHours := 0,
    dryingHours := 0, sunriseHour := 8, sunsetHour := 16,
    sunnyPeriods := [], continuousDryingPeriods := [] }

/-- Preferences for the C1 counterexample: time-of-use tariff only. -/
def cxPrefsTariffOnly : UserPreferences :=
  { postcode := "SW1A1AA", hasGarden := false, hasEV := false,
    hasSolar := false, hasTimeOfUseTariff := true,
    preferredTemperature := 19, heatingType := "gas",
    hotWaterSystem := "combi" }

/-- Live grid data at 65% renewables for the C1 counterexample. -/
def cxGridClean : GridData :=
  { carbonIntensity := 120, carbonIndex := "low", renewablePercent := 65,
    fossilPercent := 25, nuclearPercent := 10, otherPercent := 0,
    fuelBreakdown := [⟨"wind", 50, "renewable"⟩, ⟨"solar", 15, "renewable"⟩],
    timestamp := "2025-01-08T12:00Z" }

set_option maxRecDepth 8000 in
set_option maxHeartbeats 1000000 in
/-- C1 counterexample: with a time-of-use tariff and a 65%-renewable
grid snapshot, the engine returns the personalised medium-priority
`off-peak-appliances` before the non-personalised high-priority
`grid-clean-now`, so the output is not ordered by priority rank. -/
theorem priority_ordering_counterexample :
    (generateRecommendations cxWeatherMild cxPrefsTariffOnly true .today
        (some cxGridClean) 12).map (fun r => (r.id, priorityOrder r.priority)) =
      [("off-peak-appliances", 1), ("grid-clean-now", 0)] ∧
    ¬ List.Chain'
        (fun a b => priorityOrder a.priority ≤ priorityOrder b.priority)
        (generateRecommendations cxWeatherMild cxPrefsTariffOnly true .today
          (some cxGridClean) 12) := by
  have hmap :
      (generateRecommendations cxWeatherMild cxPrefsTariffOnly true .today
          (some cxGridClean) 12).map
          (fun r => (r.id, priorityOrder r.priority)) =
        [("off-peak-appliances", 1), ("grid-clean-now", 0)] := by
    norm_num +decide [generateRecommendations, ruleRecommendations,
      laundryBlock, evBlock, curtainsBlock, heatingChainBlock, rainyBlock,
      heatPumpBlock, gasBlock, oilBlock, tankBlock, electricSolarBlock,
      offPeakBlock, gridBlock, sortRecs, insertRecSorted, recBefore,
      priorityOrder, impactOrder, applyCategoryDiversity, diversityPassOne,
      diversityCappedAdd, diversityRelaxedFill, categoryCountIn,
      applyTimeStatus, offPeakAppliancesRec, gridCleanNowRec, shouldLineDry,
      Date.getDay, Date.daysFromCivil, cxWeatherMild, cxPrefsTariffOnly,
      cxGridClean, List.find?, jsToFixed0, jsRound, numStr, List.contains,
      List.elem, List.countP_cons, List.countP_nil, List.filter_cons,
      List.filter_nil, List.mem_cons, List.not_mem_nil, List.take]
  refine ⟨hmap, fun hc => ?_⟩
  rcases hl : generateRecommendations cxWeatherMild cxPrefsTariffOnly true
      .today (some cxGridClean) 12 with _ | ⟨a, _ | ⟨b, rest⟩⟩ <;>
    rw [hl] at hmap hc <;> simp_all

end EcoTuned


/-! ## Theorems for claim C4: the heat-pump cold-weather rule -/

namespace EcoTuned

/-- C4 (amended): with a heat pump and `tempLow < 0` the rule stage
emits `heat-pump-cold-weather` with priority medium — provided the
heat-pump-optimal condition (5 ≤ avgTemp ≤ 15) does not hold, since the
source guards the cold-weather rule by an `else if` under the optimal
branch (recommendations.ts:250-276). -/
theorem heat_pump_cold_weather_rule (w : SimplifiedWeather)
    (p : UserPreferences) (isToday : Bool) (day : DayLabel)
    (gridData : Option GridData) (hhp : p.heatingType = "heat-pump")
    (hlow : w.tempLow < 0) (hopt : ¬ (5 ≤ w.avgTemp ∧ w.avgTemp ≤ 15)) :
    ∃ r ∈ ruleRecommendations w p isToday day gridData,
      r.id = "heat-pump-cold-weather" ∧ r.priority = Level.medium := by
  refine ⟨heatPumpColdWeatherRec w day, ?_, rfl, rfl⟩
  have hb : heatPumpBlock w p day = [heatPumpColdWeatherRec w day] := by
    simp [heatPumpBlock, hhp, hopt, hlow]
  simp [ruleRecommendations, hb]

/-- Cold heat-pump weather where the optimal range does not hold
(avgTemp 2). -/
def cxWeatherHPCold : SimplifiedWeather :=
  { date := ⟨2025, 1, 8⟩, tempHigh := 6, tempLow := -2, avgTemp := 2,
    tempNow := none, conditions := "Overcast", conditionsRange := none,
    cloudCoveragePercent := 80, windSpeedMph := 8, windSpeedMax := 12,
    rainProbability := 20, avgHumidity := 60, sunnyHours := 0,
    dryingHours := 0, sunriseHour := 8, sunsetHour := 16,
    sunnyPeriods := [], continuousDryingPeriods := [] }

/-- Heat-pump household preferences. -/
def cxPrefsHeatPump : UserPreferences :=
  { postcode := "SW1A1AA", hasGarden := false, hasEV := false,
    hasSolar := false, hasTimeOfUseTariff := false,
    preferredTemperature := 19, heatingType := "heat-pump",
    hotWaterSystem := "tank" }

/-- Witness for C4 (amended) at a concrete cold day with avgTemp 2. -/
theorem heat_pump_cold_weather_rule_witness :
    ∃ r ∈ ruleRecommendations cxWeatherHPCold cxPrefsHeatPump false
        .tomorrow none,
      r.id = "heat-pump-cold-weather" ∧ r.priority = Level.medium :=
  heat_pump_cold_weather_rule cxWeatherHPCold cxPrefsHeatPump false
    .tomorrow none rfl (by norm_num [cxWeatherHPCold])
    (by norm_num [cxWeatherHPCold])

/-- Cold night (tempLow −2) on a day whose avgTemp 6 also satisfies the
heat-pump-optimal range. -/
def cxWeatherHPBoth : SimplifiedWeather :=
  { date := ⟨2025, 1, 8⟩, tempHigh := 10, tempLow := -2, avgTemp := 6,
    tempNow := none, conditions := "Overcast", conditionsRange := none,
    cloudCoveragePercent := 80, windSpeedMph := 8, windSpeedMax := 12,
    rainProbability := 20, avgHumidity := 60, sunnyHours := 0,
    dryingHours := 0, sunriseHour := 8, sunsetHour := 16,
    sunnyPeriods := [], continuousDryingPeriods := [] }

/-- C4 counterexample: with heatingType heat-pump and tempLow = −2 < 0
but avgTemp = 6 in the optimal range, the rule stage emits
`heat-pump-optimal` and no `heat-pump-cold-weather` at all — refuting
"regardless of whether the heat-pump-optimal condition also holds". -/
theorem heat_pump_cold_weather_counterexample :
    cxPrefsHeatPump.heatingType = "heat-pump" ∧
    cxWeatherHPBoth.tempLow < 0 ∧
    (ruleRecommendations cxWeatherHPBoth cxPrefsHeatPump false .tomorrow
        none).map (fun r => r.id) =
      ["curtains-cold", "efficient-hot-water", "heat-pump-optimal"] ∧
    ∀ r ∈ ruleRecommendations cxWeatherHPBoth cxPrefsHeatPump false
        .tomorrow none, r.id ≠ "heat-pump-cold-weather" := by
  refine ⟨rfl, by norm_num [cxWeatherHPBoth], ?_, ?_⟩ <;>
    norm_num +decide [ruleRecommendations, laundryBlock, evBlock,
      curtainsBlock, heatingChainBlock, rainyBlock, heatPumpBlock, gasBlock,
      oilBlock, tankBlock, electricSolarBlock, offPeakBlock, gridBlock,
      shouldLineDry, Date.getDay, Date.daysFromCivil, cxWeatherHPBoth,
      cxPrefsHeatPump, curtainsColdRec, efficientHotWaterRec,
      heatPumpOptimalRec]

end EcoTuned

/-! ## Theorem for claim C9: determinism with an injected clock -/

namespace EcoTuned

/-- C9: with the wall-clock "now" (the current UK hour, here an
explicit argument) fixed, two invocations of `generateRecommendations`
on identical weather, preferences, isToday, day and grid-data arguments
return identical output lists.  The embedding passes the only ambient
input — the current UK hour read by `applyTimeStatus` — explicitly, so
the engine is a pure function of its arguments. -/
theorem generateRecommendations_deterministic (w₁ w₂ : SimplifiedWeather)
    (p₁ p₂ : UserPreferences) (t₁ t₂ : Bool) (d₁ d₂ : DayLabel)
    (g₁ g₂ : Option GridData) (n₁ n₂ : Nat) (hw : w₁ = w₂) (hp : p₁ = p₂)
    (ht : t₁ = t₂) (hd : d₁ = d₂) (hg : g₁ = g₂) (hn : n₁ = n₂) :
    generateRecommendations w₁ p₁ t₁ d₁ g₁ n₁ =
      generateRecommendations w₂ p₂ t₂ d₂ g₂ n₂ := by
  subst hw hp ht hd hg hn
  rfl

/-- Witness for C9 at a concrete input pair. -/
theorem generateRecommendations_deterministic_witness :
    generateRecommendations cxWeatherMild cxPrefsTariffOnly true .today
        (some cxGridClean) 12 =
      generateRecommendations cxWeatherMild cxPrefsTariffOnly true .today
        (some cxGridClean) 12 :=
  generateRecommendations_deterministic cxWeatherMild cxWeatherMild
    cxPrefsTariffOnly cxPrefsTariffOnly true true .today .today
    (some cxGridClean) (some cxGridClean) 12 12 rfl rfl rfl rfl rfl rfl

end EcoTuned

/-! ## Theorems for claim C5: the electric-heating-solar window -/

namespace EcoTuned

theorem reduceMaxSolar_spec (t : List SunnyPeriod) :
    ∀ h : SunnyPeriod,
      reduceMaxSolar h t ∈ h :: t ∧
      h.solarRadiation ≤ (reduceMaxSolar h t).solarRadiation ∧
      ∀ q ∈ t, q.solarRadiation ≤ (reduceMaxSolar h t).solarRadiation := by
  induction t with
  | nil => intro h; simp [reduceMaxSolar]
  | cons a t' IH =>
    intro h
    have hstep : reduceMaxSolar h (a :: t') =
        reduceMaxSolar (if a.solarRadiation > h.solarRadiation then a else h) t' := by
      simp [reduceMaxSolar]
    obtain ⟨m1, m2, m3⟩ := IH (if a.solarRadiation > h.solarRadiation then a else h)
    rw [hstep]
    refine ⟨?_, ?_, ?_⟩
    · rcases List.mem_cons.mp m1 with he | hm
      · rw [he]; split_ifs <;> simp
      · simp [hm]
    · refine le_trans ?_ m2
      split_ifs with hgt
      · exact le_of_lt hgt
      · exact le_refl _
    · intro q hq
      rcases List.mem_cons.mp hq with rfl | hq2
      · refine le_trans ?_ m2
        split_ifs with hgt
        · exact le_refl _
        · exact not_lt.mp hgt
      · exact m3 q hq2

/-- C5 (amended): whenever the electric-heating-solar rule fires, the
window in its description starts at the hour of a sunny period whose
solar radiation is maximal over all sunny periods (no midday [11,15]
preference — `findBestSolarPeriod` is not used by this rule), and it is
reported as the 2-hour span `h:00-(h+2):00` in 24-hour format. -/
theorem electric_heating_solar_window (w : SimplifiedWeather)
    (p : UserPreferences) (isToday : Bool) (day : DayLabel)
    (gridData : Option GridData) (h1 : p.heatingType = "electric")
    (h2 : p.hasSolar = true) (h3 : w.sunnyHours > 3)
    (hps : w.sunnyPeriods ≠ []) :
    ∃ r ∈ ruleRecommendations w p isToday day gridData,
      r.id = "electric-heating-solar" ∧
      ∃ pk ∈ w.sunnyPeriods,
        (∀ q ∈ w.sunnyPeriods, q.solarRadiation ≤ pk.solarRadiation) ∧
        r.description = "Strong solar generation " ++ day.str ++
          " - run electric heating " ++ toString pk.hour ++ ":00-" ++
          toString (pk.hour + 2) ++ ":00 to use your own electricity." := by
  rcases he : w.sunnyPeriods with _ | ⟨hh, tt⟩
  · exact absurd he hps
  refine ⟨electricHeatingSolarRec day (reduceMaxSolar hh tt), ?_, rfl, ?_⟩
  · have hb : electricSolarBlock w p day =
        [electricHeatingSolarRec day (reduceMaxSolar hh tt)] := by
      simp [electricSolarBlock, h1, h2, h3, he]
    simp [ruleRecommendations, hb]
  · obtain ⟨m1, m2, m3⟩ := reduceMaxSolar_spec tt hh
    refine ⟨reduceMaxSolar hh tt, m1, ?_, rfl⟩
    intro q hq
    rcases List.mem_cons.mp hq with rfl | hq2
    · exact m2
    · exact m3 q hq2

/-- A day with two sunny periods: hour 12 at 300 W/m² (the midday
preference of `findBestSolarPeriod` would pick it) and hour 8 at
500 W/m² (the global maximum actually used by the rule). -/
def cxWeatherTwoPeaks : SimplifiedWeather :=
  { date := ⟨2025, 1, 8⟩, tempHigh := 21, tempLow := 10, avgTemp := 20,
    tempNow := none, conditions := "Clear", conditionsRange := none,
    cloudCoveragePercent := 20, windSpeedMph := 8, windSpeedMax := 12,
    rainProbability := 20, avgHumidity := 60, sunnyHours := 5,
    dryingHours := 0, sunriseHour := 8, sunsetHour := 16,
    sunnyPeriods := [⟨12, 15, 10, 300⟩, ⟨8, 10, 10, 500⟩],
    continuousDryingPeriods := [] }

/-- Electric heating with solar panels. -/
def cxPrefsElectricSolar : UserPreferences :=
  { postcode := "SW1A1AA", hasGarden := false, hasEV := false,
    hasSolar := true, hasTimeOfUseTariff := false,
    preferredTemperature := 19, heatingType := "electric",
    hotWaterSystem := "electric" }

/-- Witness for C5 (amended) at the two-peak day. -/
theorem electric_heating_solar_window_witness :
    ∃ r ∈ ruleRecommendations cxWeatherTwoPeaks cxPrefsElectricSolar false
        .tomorrow none,
      r.id = "electric-heating-solar" ∧
      ∃ pk ∈ cxWeatherTwoPeaks.sunnyPeriods,
        (∀ q ∈ cxWeatherTwoPeaks.sunnyPeriods,
          q.solarRadiation ≤ pk.solarRadiation) ∧
        r.description = "Strong solar generation " ++ DayLabel.tomorrow.str ++
          " - run electric heating " ++ toString pk.hour ++ ":00-" ++
          toString (pk.hour + 2) ++ ":00 to use your own electricity." :=
  electric_heating_solar_window cxWeatherTwoPeaks cxPrefsElectricSolar false
    .tomorrow none rfl rfl (by norm_num [cxWeatherTwoPeaks])
    (by simp [cxWeatherTwoPeaks])

set_option maxRecDepth 8000 in
set_option maxHeartbeats 1000000 in
/-- C5 counterexample: on the two-peak day the emitted description
reports the window `8:00-10:00` — the 2-hour, 24-hour-format window at
the global radiation maximum — while the best-solar-period selection
of the claim would report the 3-hour 12-hour-clock window 12pm-3pm. -/
theorem electric_heating_solar_counterexample :
    (generateRecommendations cxWeatherTwoPeaks cxPrefsElectricSolar false
        .tomorrow none 12).map (fun r => (r.id, r.description)) =
      [("electric-heating-solar",
        "Strong solar generation tomorrow - run electric heating 8:00-10:00 to use your own electricity.")] ∧
    findBestSolarPeriod cxWeatherTwoPeaks.sunnyPeriods =
      { start := "12pm", end_ := "3pm", temp := 15 } := by
  constructor
  · norm_num +decide [generateRecommendations, ruleRecommendations,
    laundryBlock, evBlock, curtainsBlock, heatingChainBlock, rainyBlock,
    heatPumpBlock, gasBlock, oilBlock, tankBlock, electricSolarBlock,
    offPeakBlock, gridBlock, sortRecs, insertRecSorted, recBefore,
    priorityOrder, impactOrder, applyCategoryDiversity, diversityPassOne,
    diversityCappedAdd, diversityRelaxedFill, categoryCountIn,
    applyTimeStatus, shouldLineDry, Date.getDay, Date.daysFromCivil,
    List.find?, jsToFixed0, jsRound, numStr, List.contains, List.elem,
    List.countP_cons, List.countP_nil, List.filter_cons, List.filter_nil,
    List.mem_cons, List.not_mem_nil, List.take,
      electricHeatingSolarRec, reduceMaxSolar, DayLabel.str,
      cxWeatherTwoPeaks, cxPrefsElectricSolar]
  · norm_num [findBestSolarPeriod, mkBestSolar, hourLabel12, jsHour12,
      jsRound, reduceMaxSolar, cxWeatherTwoPeaks, List.filter_cons,
      List.filter_nil]
    decide

end EcoTuned

/-! ## Theorem for claim C3: ev-solar-charging time status -/

namespace EcoTuned

/-- A today-request day with a single sunny period at hour 13; its
best-solar window runs to hour 16 and is labelled "4pm". -/
def cxWeatherOnePeak : SimplifiedWeather :=
  { date := ⟨2025, 1, 8⟩, tempHigh := 21, tempLow := 10, avgTemp := 20,
    tempNow := none, conditions := "Clear", conditionsRange := none,
    cloudCoveragePercent := 20, windSpeedMph := 8, windSpeedMax := 12,
    rainProbability := 20, avgHumidity := 60, sunnyHours := 1,
    dryingHours := 0, sunriseHour := 8, sunsetHour := 16,
    sunnyPeriods := [⟨13, 15, 10, 400⟩], continuousDryingPeriods := [] }

/-- An EV owner with solar panels. -/
def cxPrefsEVSolar : UserPreferences :=
  { postcode := "SW1A1AA", hasGarden := false, hasEV := true,
    hasSolar := true, hasTimeOfUseTariff := false,
    preferredTemperature := 19, heatingType := "gas",
    hotWaterSystem := "combi" }

set_option maxRecDepth 8000 in
set_option maxHeartbeats 1000000 in
/-- C3, evaluated at the failing input: at current UK hour 5 — eleven
hours before the best-solar window ends at hour 16 — the
`ev-solar-charging` recommendation is already marked `passed`, because
`applyTimeStatus` computes the window end as
`parseInt('4pm'.split(':')[0]) = 4` from the 12-hour label instead of
the 24-hour end 16.  The claim (current hour ≥ start + 3, i.e. ≥ 16)
says it should still be `active`. -/
theorem ev_solar_time_status_bug :
    (generateRecommendations cxWeatherOnePeak cxPrefsEVSolar true .today
        none 5).map (fun r => (r.id, r.timeStatus)) =
      [("ev-solar-charging", some TimeStatus.passed)] ∧
    findBestSolarPeriod cxWeatherOnePeak.sunnyPeriods =
      { start := "1pm", end_ := "4pm", temp := 15 } ∧
    (5 : Nat) < 13 + 3 := by
  have h4pm : hourLabel12 16 = "4pm" := by decide
  have h1pm : hourLabel12 13 = "1pm" := by decide
  have hparse : parseIntPrefix (splitColonHead "4pm") = 4 := by decide
  refine ⟨?_, ?_, by norm_num⟩
  · norm_num +decide [generateRecommendations, ruleRecommendations,
    laundryBlock, evBlock, curtainsBlock, heatingChainBlock, rainyBlock,
    heatPumpBlock, gasBlock, oilBlock, tankBlock, electricSolarBlock,
    offPeakBlock, gridBlock, sortRecs, insertRecSorted, recBefore,
    priorityOrder, impactOrder, applyCategoryDiversity, diversityPassOne,
    diversityCappedAdd, diversityRelaxedFill, categoryCountIn,
    applyTimeStatus, shouldLineDry, Date.getDay, Date.daysFromCivil,
    List.find?, jsToFixed0, jsRound, numStr, List.contains, List.elem,
    List.countP_cons, List.countP_nil, List.filter_cons, List.filter_nil,
    List.mem_cons, List.not_mem_nil, List.take,
      evSolarRec, findBestSolarPeriod, mkBestSolar, h4pm, h1pm, hparse,
      reduceMaxSolar, cxWeatherOnePeak, cxPrefsEVSolar]
  · norm_num [findBestSolarPeriod, mkBestSolar, h4pm, h1pm, reduceMaxSolar,
      jsRound, cxWeatherOnePeak, List.filter_cons, List.filter_nil]

end EcoTuned

/-! ## Category counting for claim C2 -/

namespace EcoTuned

/-- "High-priority, high-impact, personalised, of category `c`": the
predicate counted by the first diversity pass, refined by category. -/
def hhpCat (c : Category) (r : Recommendation) : Bool :=
  decide (r.category = c) &&
    (decide (r.priority = Level.high) && decide (r.impact = some Level.high) &&
      r.isPersonalised)

theorem hhp_laundryBlock (w : SimplifiedWeather) (p : UserPreferences)
    (day : DayLabel) (c : Category) :
    (laundryBlock w p day).countP (hhpCat c) ≤ 1 ∧
      (c ≠ Category.laundry → (laundryBlock w p day).countP (hhpCat c) = 0) := by
  constructor
  · refine le_trans (List.countP_le_length _) ?_
    unfold laundryBlock
    split_ifs <;> simp
  · intro hc
    have hc2 : Category.laundry ≠ c := Ne.symm hc
    unfold laundryBlock
    split_ifs <;>
      simp +decide [List.countP_cons, hhpCat, lineDryRec, indoorDryRec, hc2]

theorem hhp_evBlock (w : SimplifiedWeather) (p : UserPreferences)
    (c : Category) :
    (evBlock w p).countP (hhpCat c) ≤ 1 ∧
      (c ≠ Category.mobility → (evBlock w p).countP (hhpCat c) = 0) := by
  constructor
  · refine le_trans (List.countP_le_length _) ?_
    unfold evBlock
    split_ifs <;> simp
  · intro hc
    have hc2 : Category.mobility ≠ c := Ne.symm hc
    unfold evBlock
    split_ifs <;>
      simp +decide [List.countP_cons, hhpCat, evSolarRec, evOffpeakRec, hc2]

theorem hhp_curtainsBlock (w : SimplifiedWeather) (c : Category) :
    (curtainsBlock w).countP (hhpCat c) = 0 := by
  unfold curtainsBlock
  split_ifs <;>
    simp +decide [List.countP_cons, hhpCat, curtainsColdRec, curtainsHotRec]

theorem hhp_heatingChainBlock (w : SimplifiedWeather) (p : UserPreferences)
    (day : DayLabel) (c : Category) :
    (heatingChainBlock w p day).countP (hhpCat c) ≤ 1 ∧
      (c ≠ Category.heating →
        (heatingChainBlock w p day).countP (hhpCat c) = 0) := by
  constructor
  · refine le_trans (List.countP_le_length _) ?_
    unfold heatingChainBlock
    split_ifs <;> simp
  · intro hc
    have hc2 : Category.heating ≠ c := Ne.symm hc
    unfold heatingChainBlock
    split_ifs <;>
      simp +decide [List.countP_cons, hhpCat, batchHotWaterRec,
        efficientHotWaterRec, naturalVentilationRec, avoidHeatGeneratingRec,
        hotDayCookingRec, hc2]

theorem hhp_rainyBlock (w : SimplifiedWeather) (day : DayLabel)
    (isWeekend : Bool) (c : Category) :
    (rainyBlock w day isWeekend).countP (hhpCat c) = 0 := by
  unfold rainyBlock
  split_ifs <;>
    simp +decide [List.countP_cons, hhpCat, rainyDayCookingRec]

theorem hhp_heatPumpBlock (w : SimplifiedWeather) (p : UserPreferences)
    (day : DayLabel) (c : Category) :
    (heatPumpBlock w p day).countP (hhpCat c) = 0 := by
  unfold heatPumpBlock
  split_ifs <;>
    simp +decide [List.countP_cons, hhpCat, heatPumpOptimalRec,
      heatPumpColdWeatherRec]

theorem hhp_gasBlock (w : SimplifiedWeather) (p : UserPreferences)
    (day : DayLabel) (c : Category) :
    (gasBlock w p day).countP (hhpCat c) = 0 := by
  unfold gasBlock
  split_ifs <;>
    simp +decide [List.countP_append, List.countP_cons, hhpCat,
      gasMildWeatherRec, gasColdPreheatRec, gasSolarElectricRec]

theorem hhp_oilBlock (w : SimplifiedWeather) (p : UserPreferences)
    (day : DayLabel) (c : Category) :
    (oilBlock w p day).countP (hhpCat c) ≤ 1 ∧
      (c ≠ Category.heating → (oilBlock w p day).countP (hhpCat c) = 0) ∧
      (p.heatingType ≠ "oil" → (oilBlock w p day).countP (hhpCat c) = 0) := by
  refine ⟨?_, ?_, ?_⟩
  · unfold oilBlock
    split_ifs <;>
      simp +decide [List.countP_append, List.countP_cons, hhpCat,
        oilMildWeatherRec, oilColdWeatherRec, oilBatchHeatingRec] <;>
      split_ifs <;> simp
  · intro hc
    have hc2 : Category.heating ≠ c := Ne.symm hc
    unfold oilBlock
    split_ifs <;>
      simp +decide [List.countP_append, List.countP_cons, hhpCat,
        oilMildWeatherRec, oilColdWeatherRec, oilBatchHeatingRec, hc2]
  · intro hp
    unfold oilBlock
    rw [if_neg hp]
    rfl

theorem hhp_tankBlock (w : SimplifiedWeather) (p : UserPreferences)
    (c : Category) :
    (tankBlock w p).countP (hhpCat c) = 0 := by
  unfold tankBlock
  split_ifs <;>
    simp +decide [List.countP_cons, hhpCat, tankMildNightRec, tankColdNightRec]

theorem hhp_electricSolarBlock (w : SimplifiedWeather) (p : UserPreferences)
    (day : DayLabel) (c : Category) :
    (electricSolarBlock w p day).countP (hhpCat c) ≤ 1 ∧
      (c ≠ Category.heating →
        (electricSolarBlock w p day).countP (hhpCat c) = 0) ∧
      (p.heatingType ≠ "electric" →
        (electricSolarBlock w p day).countP (hhpCat c) = 0) := by
  refine ⟨?_, ?_, ?_⟩
  · refine le_trans (List.countP_le_length _) ?_
    unfold electricSolarBlock
    split_ifs
    · rcases w.sunnyPeriods with _ | ⟨hh, tt⟩ <;> simp
    · simp
  · intro hc
    have hc2 : Category.heating ≠ c := Ne.symm hc
    unfold electricSolarBlock
    split_ifs
    · rcases w.sunnyPeriods with _ | ⟨hh, tt⟩ <;>
        simp +decide [List.countP_cons, hhpCat, electricHeatingSolarRec, hc2]
    · simp
  · intro hp
    unfold electricSolarBlock
    rw [if_neg (fun hand => hp hand.1)]
    rfl

theorem hhp_offPeakBlock (p : UserPreferences) (day : DayLabel)
    (c : Category) :
    (offPeakBlock p day).countP (hhpCat c) = 0 := by
  unfold offPeakBlock
  split_ifs <;>
    simp +decide [List.countP_cons, hhpCat, offPeakAppliancesRec]

theorem hhp_gridBlock (isToday : Bool) (day : DayLabel)
    (gridData : Option GridData) (c : Category) :
    (gridBlock isToday day gridData).countP (hhpCat c) = 0 := by
  unfold gridBlock
  rcases gridData with _ | g <;> split_ifs <;>
    simp +decide [List.countP_append, List.countP_cons, hhpCat,
      gridCleanNowRec, gridLowCarbonRec]
  all_goals (intros; subst_vars; rfl)

/-- At most two high/high/personalised recommendations of any one
category are ever emitted by the rule stage: the only category with
several candidates is heating, where the hot-water chain contributes at
most one and the oil and electric blocks are mutually exclusive. -/
theorem hhp_count_ruleRecommendations (w : SimplifiedWeather)
    (p : UserPreferences) (isToday : Bool) (day : DayLabel)
    (gridData : Option GridData) (c : Category) :
    (ruleRecommendations w p isToday day gridData).countP (hhpCat c) ≤ 2 := by
  obtain ⟨l1, l0⟩ := hhp_laundryBlock w p day c
  obtain ⟨e1, e0⟩ := hhp_evBlock w p c
  obtain ⟨h1, h0⟩ := hhp_heatingChainBlock w p day c
  obtain ⟨o1, o0, ox⟩ := hhp_oilBlock w p day c
  obtain ⟨s1, s0, sx⟩ := hhp_electricSolarBlock w p day c
  have htotal : (ruleRecommendations w p isToday day gridData).countP (hhpCat c) =
      (laundryBlock w p day).countP (hhpCat c) +
      (evBlock w p).countP (hhpCat c) +
      (heatingChainBlock w p day).countP (hhpCat c) +
      (oilBlock w p day).countP (hhpCat c) +
      (electricSolarBlock w p day).countP (hhpCat c) := by
    simp [ruleRecommendations, List.countP_append, hhp_curtainsBlock,
      hhp_rainyBlock, hhp_heatPumpBlock, hhp_gasBlock, hhp_tankBlock,
      hhp_offPeakBlock, hhp_gridBlock]
    omega
  rw [htotal]
  cases c with
  | laundry =>
    rw [e0 (by simp), h0 (by simp), o0 (by simp), s0 (by simp)]
    omega
  | mobility =>
    rw [l0 (by simp), h0 (by simp), o0 (by simp), s0 (by simp)]
    omega
  | heating =>
    rw [l0 (by simp), e0 (by simp)]
    by_cases hoil : p.heatingType = "oil"
    · rw [sx (by rw [hoil]; decide)]
      omega
    · rw [ox hoil]
      omega
  | cooking =>
    rw [l0 (by simp), e0 (by simp), h0 (by simp), o0 (by simp), s0 (by simp)]
    omega
  | insulation =>
    rw [l0 (by simp), e0 (by simp), h0 (by simp), o0 (by simp), s0 (by simp)]
    omega
  | appliances =>
    rw [l0 (by simp), e0 (by simp), h0 (by simp), o0 (by simp), s0 (by simp)]
    omega

end EcoTuned

namespace EcoTuned

theorem categoryCountIn_append_singleton (l : List Recommendation)
    (r : Recommendation) (c : Category) :
    categoryCountIn (l ++ [r]) c =
      categoryCountIn l c + (if r.category = c then 1 else 0) := by
  simp [categoryCountIn, List.countP_append, List.countP_cons]

/-- The capped passes keep every category's count at most 2: an entry
is only appended while its category's count is below the cap. -/
theorem diversityCappedAdd_count_le (only : Bool)
    (recs : List Recommendation) :
    ∀ init, (∀ c, categoryCountIn init c ≤ 2) →
      ∀ c, categoryCountIn (diversityCappedAdd only recs init) c ≤ 2 := by
  induction recs with
  | nil => intro init h c; exact h c
  | cons rec t IH =>
    intro init h c
    have hcons : diversityCappedAdd only (rec :: t) init =
        diversityCappedAdd only t
          (if init.contains rec then init
           else if only && !rec.isPersonalised then init
           else if categoryCountIn init rec.category < 2 then init ++ [rec]
           else init) := rfl
    rw [hcons]
    refine IH _ ?_ c
    intro c'
    split_ifs with hmem hpers hlt
    · exact h c'
    · exact h c'
    · rw [categoryCountIn_append_singleton]
      by_cases hcat : rec.category = c'
      · rw [if_pos hcat, ← hcat]
        omega
      · rw [if_neg hcat]
        exact Nat.add_zero (categoryCountIn init c') ▸ h c'
    · exact h c'

theorem diversityRelaxedFill_of_length_ge (recs init : List Recommendation)
    (h : 4 ≤ init.length) : diversityRelaxedFill recs init = init := by
  rw [diversityRelaxedFill, if_neg (by omega)]

theorem categoryCountIn_take_le (n : Nat) (l : List Recommendation)
    (c : Category) : categoryCountIn (l.take n) c ≤ categoryCountIn l c := by
  unfold categoryCountIn
  conv_rhs => rw [← List.take_append_drop n l]
  rw [List.countP_append]
  omega

theorem categoryCountIn_applyTimeStatus (recs : List Recommendation)
    (w : SimplifiedWeather) (isToday : Bool) (currentUKHour : Nat)
    (c : Category) :
    categoryCountIn (applyTimeStatus recs w isToday currentUKHour) c =
      categoryCountIn recs c := by
  unfold applyTimeStatus
  split_ifs <;> (simp only [categoryCountIn, List.countP_map]; rfl)

theorem categoryCountIn_diversityPassOne (l : List Recommendation)
    (c : Category) :
    categoryCountIn (diversityPassOne l) c = l.countP (hhpCat c) := by
  simp only [categoryCountIn, diversityPassOne, List.countP_filter]
  rfl

/-- C2 (amended): no category appears more than 2 times in the final
≤4-item output whenever the three capped selection passes have already
selected at least 4 items.  When they select fewer — which can happen
even though 4 or more recommendations were emitted, if the cap blocks
same-category candidates — the relaxation pass refills ignoring the
cap, and the bound can fail (see the counterexample). -/
theorem category_cap_of_capped_selection (w : SimplifiedWeather)
    (p : UserPreferences) (isToday : Bool) (day : DayLabel)
    (gridData : Option GridData) (currentUKHour : Nat) (c : Category)
    (h4 : 4 ≤ (diversityCappedAdd false
        (sortRecs (ruleRecommendations w p isToday day gridData))
        (diversityCappedAdd true
          (sortRecs (ruleRecommendations w p isToday day gridData))
          (diversityPassOne
            (sortRecs (ruleRecommendations w p isToday day gridData))))).length) :
    categoryCountIn
      (generateRecommendations w p isToday day gridData currentUKHour) c ≤ 2 := by
  have hpass1 : ∀ c', categoryCountIn
      (diversityPassOne (sortRecs (ruleRecommendations w p isToday day
        gridData))) c' ≤ 2 := by
    intro c'
    rw [categoryCountIn_diversityPassOne, (sortRecs_perm _).countP_eq]
    exact hhp_count_ruleRecommendations w p isToday day gridData c'
  have h2 := diversityCappedAdd_count_le true
    (sortRecs (ruleRecommendations w p isToday day gridData)) _ hpass1
  have h3 := diversityCappedAdd_count_le false
    (sortRecs (ruleRecommendations w p isToday day gridData)) _ h2
  unfold generateRecommendations applyCategoryDiversity
  rw [diversityRelaxedFill_of_length_ge _ _ h4,
    categoryCountIn_applyTimeStatus]
  exact le_trans (categoryCountIn_take_le _ _ _) (h3 c)

end EcoTuned

namespace EcoTuned

/-- A drying day with mild gas-range temperatures, firing four rules of
four different categories. -/
def cxWeatherFour : SimplifiedWeather :=
  { date := ⟨2025, 1, 8⟩, tempHigh := 15, tempLow := 8, avgTemp := 12,
    tempNow := none, conditions := "Clear", conditionsRange := none,
    cloudCoveragePercent := 20, windSpeedMph := 10, windSpeedMax := 14,
    rainProbability := 20, avgHumidity := 65, sunnyHours := 0,
    dryingHours := 5, sunriseHour := 8, sunsetHour := 16,
    sunnyPeriods := [], continuousDryingPeriods := [] }

/-- Garden, EV without solar, time-of-use tariff, gas heating. -/
def cxPrefsFour : UserPreferences :=
  { postcode := "SW1A1AA", hasGarden := true, hasEV := true,
    hasSolar := false, hasTimeOfUseTariff := true,
    preferredTemperature := 19, heatingType := "gas",
    hotWaterSystem := "combi" }

set_option maxRecDepth 8000 in
set_option maxHeartbeats 1000000 in
/-- Witness for C2 (amended): on a day firing line-dry, ev-offpeak,
gas-mild and off-peak-appliances the capped passes select 4 items, and
the cap hypothesis is discharged concretely. -/
theorem category_cap_of_capped_selection_witness :
    categoryCountIn (generateRecommendations cxWeatherFour cxPrefsFour false
      .tomorrow none 12) Category.heating ≤ 2 :=
  category_cap_of_capped_selection cxWeatherFour cxPrefsFour false .tomorrow
    none 12 Category.heating (by
      norm_num +decide [ruleRecommendations, laundryBlock, evBlock,
        curtainsBlock, heatingChainBlock, rainyBlock, heatPumpBlock, gasBlock,
        oilBlock, tankBlock, electricSolarBlock, offPeakBlock, gridBlock,
        sortRecs, insertRecSorted, recBefore, priorityOrder, impactOrder,
        diversityPassOne, diversityCappedAdd, diversityRelaxedFill,
        categoryCountIn, shouldLineDry, getLineDryQuality, timeWindowsText,
        sortByScoreDesc, lineDryRec, evOffpeakRec, gasMildWeatherRec,
        offPeakAppliancesRec, Date.getDay, Date.daysFromCivil, jsRound,
        numStr, List.contains, List.elem, List.countP_cons, List.countP_nil,
        List.filter_cons, List.filter_nil, List.mem_cons, List.not_mem_nil,
        cxWeatherFour, cxPrefsFour])

/-- A cold oil-heated night with a hot-water tank and a time-of-use
tariff: five recommendations are emitted, four of them heating. -/
def cxWeatherOilCold : SimplifiedWeather :=
  { date := ⟨2025, 1, 8⟩, tempHigh := 11, tempLow := 4, avgTemp := 11,
    tempNow := none, conditions := "Overcast", conditionsRange := none,
    cloudCoveragePercent := 80, windSpeedMph := 8, windSpeedMax := 12,
    rainProbability := 20, avgHumidity := 60, sunnyHours := 0,
    dryingHours := 0, sunriseHour := 8, sunsetHour := 16,
    sunnyPeriods := [], continuousDryingPeriods := [] }

/-- Oil heating, hot-water tank, time-of-use tariff. -/
def cxPrefsOilTank : UserPreferences :=
  { postcode := "SW1A1AA", hasGarden := false, hasEV := false,
    hasSolar := false, hasTimeOfUseTariff := true,
    preferredTemperature := 19, heatingType := "oil",
    hotWaterSystem := "tank" }

set_option maxRecDepth 8000 in
set_option maxHeartbeats 1000000 in
/-- C2 counterexample: the rule stage emits 5 recommendations (≥ 4),
yet the final output carries the heating category 3 times: the capped
passes select only 3 items (the cap blocks the third and fourth heating
candidates), so the relaxation pass refills past the cap. -/
theorem category_cap_counterexample :
    (ruleRecommendations cxWeatherOilCold cxPrefsOilTank false .tomorrow
        none).length = 5 ∧
    (generateRecommendations cxWeatherOilCold cxPrefsOilTank false .tomorrow
        none 12).map (fun r => r.id) =
      ["batch-hot-water", "oil-cold-weather", "off-peak-appliances",
        "tank-cold-night"] ∧
    categoryCountIn (generateRecommendations cxWeatherOilCold cxPrefsOilTank
      false .tomorrow none 12) Category.heating = 3 := by
  refine ⟨?_, ?_, ?_⟩ <;>
    norm_num +decide [generateRecommendations, ruleRecommendations,
      laundryBlock, evBlock, curtainsBlock, heatingChainBlock, rainyBlock,
      heatPumpBlock, gasBlock, oilBlock, tankBlock, electricSolarBlock,
      offPeakBlock, gridBlock, sortRecs, insertRecSorted, recBefore,
      priorityOrder, impactOrder, applyCategoryDiversity, diversityPassOne,
      diversityCappedAdd, diversityRelaxedFill, categoryCountIn,
      applyTimeStatus, shouldLineDry, batchHotWaterRec, efficientHotWaterRec,
      oilMildWeatherRec, oilColdWeatherRec, oilBatchHeatingRec,
      tankColdNightRec, offPeakAppliancesRec, Date.getDay, Date.daysFromCivil,
      jsRound, numStr, List.contains, List.elem, List.countP_cons,
      List.countP_nil, List.filter_cons, List.filter_nil, List.mem_cons,
      List.not_mem_nil, List.take, cxWeatherOilCold, cxPrefsOilTank]

end EcoTuned
